import Mathlib

/-!
# gobetween: the metrics reporting layer and the management API bootstrap

A shallow embedding of `src/metrics/metrics.go` and of the listener start-up
of `src/api/api.go`.

* The fourteen package-level `*prometheus.GaugeVec` variables are a function
  from the variable (`Series`) to an optional gauge vector; `none` is the nil
  pointer.
* A gauge vector is its options, its label schema and a finite map from label
  value tuples to the current value of the cell.
* Gauge values are IEEE-754 doubles.  Every value this package stores is the
  conversion `float64(i)` of an integer `i`, hence an integer itself; a cell
  is modelled by the integer it denotes and `float64` is the correctly rounded
  conversion (round to nearest, ties to even, 53 bit significand).
* A Go string is a sequence of bytes, not necessarily valid UTF-8; the
  exporter library refuses a label value that is not valid UTF-8.
* The default registry and the default HTTP multiplexer already hold what the
  init functions of the linked libraries installed (`Linked`).
* A run-time panic is a `Fault`; an operation returns the fault (if any)
  together with the state the variables have at that point.
-/

namespace Gobetween

/-! ## Numbers -/

/-- Number of low-order bits of `n` that do not fit a 53 bit significand
(the first argument bounds the recursion). -/
def excessBits : Nat → Nat → Nat
  | 0, _ => 0
  | fuel + 1, n => if n < 2 ^ 53 then 0 else excessBits fuel (n / 2) + 1

/-- The double nearest to the natural number `n` (ties to even), as the natural
number that double denotes. -/
def roundNat (n : Nat) : Nat :=
  let sh := excessBits n n
  let q := n / 2 ^ sh
  let r := n % 2 ^ sh
  let up := 2 * r > 2 ^ sh ∨ (2 * r = 2 ^ sh ∧ q % 2 = 1)
  (if up then q + 1 else q) * 2 ^ sh

/-- Go conversion `float64(x)` of an integer of any of the integer types. -/
def float64 (x : Int) : Int :=
  if x < 0 then - (roundNat x.natAbs : Int) else (roundNat x.natAbs : Int)

/-! ## Strings -/

/-- A Go `string`: any sequence of bytes. -/
abbrev GoString := List (Fin 256)

namespace utf8

/-- The byte `c` lies in `lo..hi`. -/
def inRange (lo hi : Nat) (c : Fin 256) : Bool := decide (lo ≤ c.val) && decide (c.val ≤ hi)

/-- Library function `utf8.ValidString(s)`: `s` consists of well-formed UTF-8
sequences only (no stray or missing continuation byte, no overlong form, no
surrogate, nothing above U+10FFFF). -/
def ValidString : GoString → Bool
  | [] => true
  | b :: rest =>
    if b.val < 0x80 then ValidString rest
    else if 0xC2 ≤ b.val ∧ b.val ≤ 0xDF then
      match rest with
      | c1 :: rest => inRange 0x80 0xBF c1 && ValidString rest
      | _ => false
    else if 0xE0 ≤ b.val ∧ b.val ≤ 0xEF then
      match rest with
      | c1 :: c2 :: rest =>
        inRange (if b.val = 0xE0 then 0xA0 else 0x80) (if b.val = 0xED then 0x9F else 0xBF) c1
          && inRange 0x80 0xBF c2 && ValidString rest
      | _ => false
    else if 0xF0 ≤ b.val ∧ b.val ≤ 0xF4 then
      match rest with
      | c1 :: c2 :: c3 :: rest =>
        inRange (if b.val = 0xF0 then 0x90 else 0x80) (if b.val = 0xF4 then 0x8F else 0xBF) c1
          && inRange 0x80 0xBF c2 && inRange 0x80 0xBF c3 && ValidString rest
      | _ => false
    else false

/-- The UTF-8 encoding of the code point `c`. -/
def encodeRune (c : Nat) : GoString :=
  if c < 0x80 then [Fin.ofNat c]
  else if c < 0x800 then [Fin.ofNat (0xC0 + c / 64), Fin.ofNat (0x80 + c % 64)]
  else if c < 0x10000 then
    [Fin.ofNat (0xE0 + c / 4096), Fin.ofNat (0x80 + c / 64 % 64), Fin.ofNat (0x80 + c % 64)]
  else
    [Fin.ofNat (0xF0 + c / 262144), Fin.ofNat (0x80 + c / 4096 % 64),
     Fin.ofNat (0x80 + c / 64 % 64), Fin.ofNat (0x80 + c % 64)]

end utf8

/-- The Go string a string literal of the source text denotes: its UTF-8
bytes. -/
def lit (s : String) : GoString := s.data.flatMap (fun c => utf8.encodeRune c.toNat)

/-! ## Collaborating packages (declared outside the two source files) -/

namespace core

/-- Target of package core: host and port of a backend. -/
structure Target where
  Host : GoString
  Port : GoString
  deriving DecidableEq, Repr

/-- Modelled from the spec: `core.BackendStats` is declared outside the given
sources; these are the fields `metrics.go` reads ("active/refused/total
connections, rx/tx bytes, rx/tx rate"), integer counters of at most 64 bits. -/
structure BackendStats where
  ActiveConnections : Int
  RefusedConnections : Int
  TotalConnections : Int
  RxBytes : Int
  TxBytes : Int
  RxSecond : Int
  TxSecond : Int
  deriving DecidableEq, Repr

/-- Modelled from the spec: `core.Backend` is declared outside the given
sources; `metrics.go` reads its field `Stats` only. -/
structure Backend where
  Stats : BackendStats
  deriving DecidableEq, Repr

end core

namespace counters

/-- Modelled from the spec: `counters.BandwidthStats` is declared outside the
given sources ("bandwidthStats{rxTotal, txTotal, rxSecond, txSecond}"), integer
counters of at most 64 bits. -/
structure BandwidthStats where
  RxTotal : Int
  TxTotal : Int
  RxSecond : Int
  TxSecond : Int
  deriving DecidableEq, Repr

end counters

/-- A value of type `map[core.Target]*core.Backend`: the entries in some order;
a lookup takes the first entry of a key, `none` as a value is a nil pointer.
The nil map is the empty list. -/
abbrev BackendMap := List (core.Target × Option core.Backend)

/-- Go `backend, _ := backends[target]`: the stored pointer, nil when the key
is absent. -/
def BackendMap.index (backends : BackendMap) (target : core.Target) : Option core.Backend :=
  match backends.find? (fun e => e.1 = target) with
  | some e => e.2
  | none => none

/-- Go `len(backends)`: the number of keys. -/
def BackendMap.len (backends : BackendMap) : Nat :=
  (backends.map Prod.fst).dedup.length

namespace config

/-- The fields of `config.MetricsConfig` that `metrics.Start` reads. -/
structure MetricsConfig where
  Enabled : Bool
  Bind : String
  deriving DecidableEq, Repr

/-- The fields of `config.ApiBasicAuthConfig` that `api.Start` reads. -/
structure ApiBasicAuthConfig where
  Login : String
  Password : String
  deriving DecidableEq, Repr

/-- The fields of `config.ApiTlsConfig` that `api.Start` reads. -/
structure ApiTlsConfig where
  CertPath : String
  KeyPath : String
  deriving DecidableEq, Repr

/-- The fields of `config.ApiConfig` that `api.Start` reads; the two optional
sections are pointers. -/
structure ApiConfig where
  Enabled : Bool
  Bind : String
  Cors : Bool
  Pprof : Bool
  BasicAuth : Option ApiBasicAuthConfig
  Tls : Option ApiTlsConfig
  deriving DecidableEq, Repr

end config

/-! ## The exporter library -/

namespace prometheus

/-- The fields of `prometheus.GaugeOpts` that `defineMetrics` sets. -/
structure GaugeOpts where
  Namespace : String
  Subsystem : String
  Name : String
  Help : String
  deriving DecidableEq, Repr

/-- The library joins namespace, subsystem and name with underscores. -/
def BuildFQName (o : GaugeOpts) : String :=
  o.Namespace ++ "_" ++ o.Subsystem ++ "_" ++ o.Name

/-- A gauge vector: options, label schema, and the cell of every label value
tuple that was touched so far. -/
structure GaugeVec where
  opts : GaugeOpts
  labelNames : List String
  cells : List GoString → Option Int

/-- Library constructor `prometheus.NewGaugeVec(opts, labelNames)`: no cell
exists yet. -/
def NewGaugeVec (opts : GaugeOpts) (labelNames : List String) : GaugeVec :=
  { opts := opts, labelNames := labelNames, cells := fun _ => none }

end prometheus

open prometheus

/-! ## Package-level state -/

/-- The fourteen package-level variables of `metrics.go`. -/
inductive Series
  | serverCount
  | serverActiveConnections
  | serverRxTotal
  | serverTxTotal
  | serverRxSecond
  | serverTxSecond
  | backendActiveConnections
  | backendRefusedConnections
  | backendTotalConnections
  | backendRxBytes
  | backendTxBytes
  | backendRxSecond
  | backendTxSecond
  | backendLive
  deriving DecidableEq, Repr, Fintype

/-- Values of the fourteen variables; `none` is the nil pointer. -/
abbrev Vars := Series → Option GaugeVec

/-- The state at process start: every variable is nil. -/
def Vars.init : Vars := fun _ => none

/-- A scrape of one cell: the value of series `v` at the label values `k`,
`none` when the series or the cell does not exist. -/
def read (st : Vars) (v : Series) (k : List GoString) : Option Int :=
  (st v).bind (fun gv => gv.cells k)

/-- Run-time panics. -/
inductive Fault
  | nilDereference
  | labelCardinality
  | invalidLabelValue
  | alreadyRegistered
  | patternConflict
  deriving DecidableEq, Repr

/-- A computation over the package variables that may panic; the variables are
returned in either case. -/
def Exec (α : Type) : Type := Vars → Except Fault α × Vars

/-- Normal return. -/
def Exec.pure {α : Type} (a : α) : Exec α := fun st => (.ok a, st)

/-- Sequencing: a panic of the first part skips the second. -/
def Exec.bind {α β : Type} (x : Exec α) (f : α → Exec β) : Exec β := fun st =>
  match x st with
  | (.ok a, st1) => f a st1
  | (.error e, st1) => (.error e, st1)

instance : Monad Exec where
  pure := Exec.pure
  bind := Exec.bind

/-- The fault a run ended with, if any. -/
def faultOf {α : Type} (r : Except Fault α × Vars) : Option Fault :=
  match r.1 with
  | .ok _ => none
  | .error e => some e

/-- Go `x == nil` for a package variable. -/
def isNil (v : Series) : Exec Bool := fun st => (.ok (st v).isNone, st)

/-- A `prometheus.Gauge` obtained from a vector: the cell it points to. -/
structure Gauge where
  vec : Series
  labelValues : List GoString
  deriving DecidableEq, Repr

/-- State after the cell `(v, lvs)` was created on demand with value 0. -/
def touch (v : Series) (lvs : List GoString) (st : Vars) : Vars := fun w =>
  if w = v then
    (st v).map (fun gv =>
      { gv with cells := fun k => if k = lvs then some ((gv.cells lvs).getD 0) else gv.cells k })
  else st w

/-- State after the cell `(v, lvs)` was given the value `x`. -/
def put (v : Series) (lvs : List GoString) (x : Int) (st : Vars) : Vars := fun w =>
  if w = v then
    (st v).map (fun gv =>
      { gv with cells := fun k => if k = lvs then some x else gv.cells k })
  else st w

/-- Library method `(*GaugeVec).WithLabelValues(lvs...)` on the variable `v`:
panics on a nil vector, when the number of values differs from the number of
label names, and when a value is not valid UTF-8; creates the cell with value
0 when it does not exist. -/
def WithLabelValues (v : Series) (lvs : List GoString) : Exec Gauge := fun st =>
  match st v with
  | none => (.error .nilDereference, st)
  | some gv =>
    if lvs.length = gv.labelNames.length then
      if lvs.all utf8.ValidString then (.ok ⟨v, lvs⟩, touch v lvs st)
      else (.error .invalidLabelValue, st)
    else (.error .labelCardinality, st)

/-- Library method `Gauge.Set(x)`: overwrites the value of the cell. -/
def Gauge.Set (g : Gauge) (x : Int) : Exec Unit := fun st =>
  (.ok (), put g.vec g.labelValues x st)

/-- Go `p.f` for a pointer `p`: panics when `p` is nil. -/
def deref {α : Type} (p : Option α) : Exec α := fun st =>
  match p with
  | some a => (.ok a, st)
  | none => (.error .nilDereference, st)

namespace metrics

/-- Go `defineMetrics`: every variable is assigned a fresh gauge vector. -/
def defineMetrics (_ : Vars) : Vars
  | .serverCount => some (NewGaugeVec
      { Namespace := "gobetween",
        Subsystem := "server",
        Name := "count",
        Help := "Server Count." }
      ["server"])
  | .serverActiveConnections => some (NewGaugeVec
      { Namespace := "gobetween",
        Subsystem := "server",
        Name := "active_connections",
        Help := "Server Actice Connections." }
      ["server"])
  | .serverRxTotal => some (NewGaugeVec
      { Namespace := "gobetween",
        Subsystem := "server",
        Name := "rx_total",
        Help := "Server Rx Total." }
      ["server"])
  | .serverTxTotal => some (NewGaugeVec
      { Namespace := "gobetween",
        Subsystem := "server",
        Name := "tx_total",
        Help := "Server Tx Total." }
      ["server"])
  | .serverRxSecond => some (NewGaugeVec
      { Namespace := "gobetween",
        Subsystem := "server",
        Name := "rx_second",
        Help := "Server Rx per Second." }
      ["server"])
  | .serverTxSecond => some (NewGaugeVec
      { Namespace := "gobetween",
        Subsystem := "server",
        Name := "tx_second",
        Help := "Server Tx per Second." }
      ["server"])
  | .backendActiveConnections => some (NewGaugeVec
      { Namespace := "gobetween",
        Subsystem := "backend",
        Name := "active_connections",
        Help := "Backend Actice Connections." }
      ["server", "host", "port"])
  | .backendRefusedConnections => some (NewGaugeVec
      { Namespace := "gobetween",
        Subsystem := "backend",
        Name := "refused_connections",
        Help := "Backend Refused Connections." }
      ["server", "host", "port"])
  | .backendTotalConnections => some (NewGaugeVec
      { Namespace := "gobetween",
        Subsystem := "backend",
        Name := "total_connections",
        Help := "Backend Total Connections." }
      ["server", "host", "port"])
  | .backendRxBytes => some (NewGaugeVec
      { Namespace := "gobetween",
        Subsystem := "backend",
        Name := "rx_bytes",
        Help := "Backend Rx Bytes." }
      ["server", "host", "port"])
  | .backendTxBytes => some (NewGaugeVec
      { Namespace := "gobetween",
        Subsystem := "backend",
        Name := "tx_bytes",
        Help := "Backend Tx Bytes." }
      ["server", "host", "port"])
  | .backendRxSecond => some (NewGaugeVec
      { Namespace := "gobetween",
        Subsystem := "backend",
        Name := "rx_second",
        Help := "Backend Rx per Second." }
      ["server", "host", "port"])
  | .backendTxSecond => some (NewGaugeVec
      { Namespace := "gobetween",
        Subsystem := "backend",
        Name := "tx_second",
        Help := "Backend Tx per Second." }
      ["server", "host", "port"])
  | .backendLive => some (NewGaugeVec
      { Namespace := "gobetween",
        Subsystem := "backend",
        Name := "live",
        Help := "Backend Alive." }
      ["server", "host", "port"])

end metrics

/-! ## The process -/

/-- How the process stands. -/
inductive Status
  | running
  | panicked (f : Fault)
  | exited (code : Nat)
  deriving DecidableEq, Repr

/-- One line written by a logger. -/
structure LogEntry where
  logger : String
  level : String
  message : String
  deriving DecidableEq, Repr

namespace gin

/-- The part of a `gin.Engine` that `api.Start` builds: middleware in use and
the route groups attached. -/
structure Engine where
  middleware : List String
  attached : List String
  deriving DecidableEq, Repr

/-- Library constructor `gin.New()`. -/
def New : Engine := { middleware := [], attached := [] }

end gin

/-- The process: the package variables of `metrics`, the default registry of
the exporter library (fully qualified names), the patterns of the default HTTP
multiplexer, the addresses with a listener serving, the package variable `app`
of `api`, the log, and the status. -/
structure Process where
  vars : Vars
  registry : List String
  mux : List String
  listening : List String
  app : Option gin.Engine
  log : List LogEntry
  status : Status

/-- What the init functions of the linked libraries installed before `main`
runs: the patterns on the default HTTP multiplexer (the profiling handlers of
`net/http/pprof`, which `api.go` links through `gin-contrib/pprof`) and the
names in the default registry of the exporter library (its Go and process
collectors). -/
structure Linked where
  mux : List String
  registry : List String

/-- The process before `main` called anything. -/
def Process.init (linked : Linked) : Process :=
  { vars := Vars.init, registry := linked.registry, mux := linked.mux, listening := [],
    app := none, log := [], status := .running }

/-- The network: what starting a listener on an address returns. `none`: the
listener serves and the call does not return; `some err`: the call returns the
(non-nil) error `err`. -/
structure Net where
  ListenAndServe : String → Option String
  ListenAndServeTLS : String → String → String → Option String

namespace logging

/-- Modelled from the spec: package `logging` is outside the given sources; a
logger carries its name. -/
structure Logger where
  name : String

/-- Modelled from the spec: `logging.For(name)`. -/
def For (name : String) : Logger := { name := name }

/-- Modelled from the spec: `Info(args...)` writes one line at informational
level. -/
def Logger.Info (l : Logger) (args : List String) (p : Process) : Process :=
  { p with log := p.log ++ [{ logger := l.name, level := "info", message := String.join args }] }

/-- Modelled from the spec: `Fatal(err)` writes the line, then the "process
terminates immediately after logging". -/
def Logger.Fatal (l : Logger) (err : String) (p : Process) : Process :=
  { p with log := p.log ++ [{ logger := l.name, level := "fatal", message := err }],
           status := .exited 1 }

end logging

namespace prometheus

/-- Library function `prometheus.MustRegister(c)` for the vector held by the
variable `v`: panics when a collector of that name is registered already. -/
def MustRegister (v : Series) (p : Process) : Process :=
  if p.status ≠ .running then p
  else match p.vars v with
    | none => { p with status := .panicked .nilDereference }
    | some gv =>
      if BuildFQName gv.opts ∈ p.registry then { p with status := .panicked .alreadyRegistered }
      else { p with registry := p.registry ++ [BuildFQName gv.opts] }

end prometheus

namespace http

/-- Library function `http.Handle(pattern, handler)`: panics when the pattern
is taken. -/
def Handle (pattern : String) (p : Process) : Process :=
  if p.status ≠ .running then p
  else if pattern ∈ p.mux then { p with status := .panicked .patternConflict }
  else { p with mux := p.mux ++ [pattern] }

end http

namespace fmt

/-- Library function `fmt.Errorf("%s", err)`: a new error value. -/
def Errorf (err : String) : String := err

end fmt

namespace metrics

/-- The goroutine `Start` launches: the value `fmt.Errorf` builds from the
result of `http.ListenAndServe` is not used. -/
def serve (net : Net) (cfg : config.MetricsConfig) (p : Process) : Process :=
  if p.status ≠ .running then p
  else match net.ListenAndServe cfg.Bind with
    | none => { p with listening := p.listening ++ [cfg.Bind] }
    | some err =>
      let _ := fmt.Errorf err
      p

/-- Go `metrics.Start(cfg)`; the result is the process once the listener of
the goroutine has either started to serve or returned. -/
def Start (net : Net) (cfg : config.MetricsConfig) (p : Process) : Process :=
  let log := logging.For "metrics"
  if !cfg.Enabled then
    log.Info ["Metrics disabled"] p
  else
    p |> log.Info ["Starting up Metrics server ", cfg.Bind]
      |> (fun p => { p with vars := defineMetrics p.vars })
      |> prometheus.MustRegister .serverCount
      |> prometheus.MustRegister .serverActiveConnections
      |> prometheus.MustRegister .serverRxTotal
      |> prometheus.MustRegister .serverTxTotal
      |> prometheus.MustRegister .serverRxSecond
      |> prometheus.MustRegister .serverTxSecond
      |> prometheus.MustRegister .backendActiveConnections
      |> prometheus.MustRegister .backendRefusedConnections
      |> prometheus.MustRegister .backendTotalConnections
      |> prometheus.MustRegister .backendRxBytes
      |> prometheus.MustRegister .backendTxBytes
      |> prometheus.MustRegister .backendRxSecond
      |> prometheus.MustRegister .backendTxSecond
      |> prometheus.MustRegister .backendLive
      |> http.Handle "/metrics"
      |> serve net cfg

/-- Go `ReportHandleBackendLiveChange`. -/
def ReportHandleBackendLiveChange (server : GoString) (target : core.Target) (live : Bool) :
    Exec Unit := do
  if (← isNil .backendLive) then
    return ()
  else
    let intLive : Int := if live then 1 else 0
    let g ← WithLabelValues .backendLive [server, target.Host, target.Port]
    g.Set (float64 intLive)

/-- Go `ReportHandleConnectionsChange`; `connections` is a `uint`. -/
def ReportHandleConnectionsChange (server : GoString) (connections : Nat) : Exec Unit := do
  if (← isNil .serverActiveConnections) then
    return ()
  else
    let g ← WithLabelValues .serverActiveConnections [server]
    g.Set (float64 connections)

/-- Go `ReportHandleStatsChange`. -/
def ReportHandleStatsChange (server : GoString) (bs : counters.BandwidthStats) : Exec Unit := do
  if (← isNil .serverRxTotal) || (← isNil .serverTxTotal) || (← isNil .serverRxSecond)
      || (← isNil .serverTxSecond) then
    return ()
  else
    let g ← WithLabelValues .serverRxTotal [server]
    g.Set (float64 bs.RxTotal)
    let g ← WithLabelValues .serverTxTotal [server]
    g.Set (float64 bs.TxTotal)
    let g ← WithLabelValues .serverRxSecond [server]
    g.Set (float64 bs.RxSecond)
    let g ← WithLabelValues .serverTxSecond [server]
    g.Set (float64 bs.TxSecond)

/-- Go `ReportHandleBackendStatsChange`. In each statement the call of
`WithLabelValues` comes before the argument of `Set` is loaded through the
pointer `backend`. -/
def ReportHandleBackendStatsChange (server : GoString) (target : core.Target)
    (backends : BackendMap) : Exec Unit := do
  if (← isNil .serverCount) || (← isNil .backendRxBytes) || (← isNil .backendTxBytes)
      || (← isNil .backendRxSecond) || (← isNil .backendTxSecond) then
    return ()
  else
    let backend := backends.index target
    let g ← WithLabelValues .serverCount [server]
    g.Set (float64 backends.len)
    let g ← WithLabelValues .backendRxBytes [server, target.Host, target.Port]
    g.Set (float64 (← deref backend).Stats.RxBytes)
    let g ← WithLabelValues .backendTxBytes [server, target.Host, target.Port]
    g.Set (float64 (← deref backend).Stats.TxBytes)
    let g ← WithLabelValues .backendRxSecond [server, target.Host, target.Port]
    g.Set (float64 (← deref backend).Stats.RxSecond)
    let g ← WithLabelValues .backendTxSecond [server, target.Host, target.Port]
    g.Set (float64 (← deref backend).Stats.TxSecond)

/-- Go `ReportHandleOp`. -/
def ReportHandleOp (server : GoString) (target : core.Target) (backends : BackendMap) :
    Exec Unit := do
  if (← isNil .backendActiveConnections) || (← isNil .backendRefusedConnections)
      || (← isNil .backendTotalConnections) then
    return ()
  else
    let backend := backends.index target
    let g ← WithLabelValues .backendActiveConnections [server, target.Host, target.Port]
    g.Set (float64 (← deref backend).Stats.ActiveConnections)
    let g ← WithLabelValues .backendRefusedConnections [server, target.Host, target.Port]
    g.Set (float64 (← deref backend).Stats.RefusedConnections)
    let g ← WithLabelValues .backendTotalConnections [server, target.Host, target.Port]
    g.Set (float64 (← deref backend).Stats.TotalConnections)

end metrics

/-! ## Sequences of reports -/

/-- One call of the reporting interface with its arguments. -/
inductive Call
  | backendLiveChange (server : GoString) (target : core.Target) (live : Bool)
  | connectionsChange (server : GoString) (connections : Nat)
  | statsChange (server : GoString) (bs : counters.BandwidthStats)
  | backendStatsChange (server : GoString) (target : core.Target) (backends : BackendMap)
  | handleOp (server : GoString) (target : core.Target) (backends : BackendMap)

/-- The function a call invokes. -/
def Call.exec : Call → Exec Unit
  | .backendLiveChange server target live =>
      metrics.ReportHandleBackendLiveChange server target live
  | .connectionsChange server connections =>
      metrics.ReportHandleConnectionsChange server connections
  | .statsChange server bs => metrics.ReportHandleStatsChange server bs
  | .backendStatsChange server target backends =>
      metrics.ReportHandleBackendStatsChange server target backends
  | .handleOp server target backends => metrics.ReportHandleOp server target backends

/-- The server name a call passes. -/
def Call.server : Call → GoString
  | .backendLiveChange server _ _ => server
  | .connectionsChange server _ => server
  | .statsChange server _ => server
  | .backendStatsChange server _ _ => server
  | .handleOp server _ _ => server

/-- The target a call passes, if it passes one. -/
def Call.target : Call → Option core.Target
  | .backendLiveChange _ target _ => some target
  | .connectionsChange _ _ => none
  | .statsChange _ _ => none
  | .backendStatsChange _ target _ => some target
  | .handleOp _ target _ => some target

/-- The cells a call is meant to write: series and label values. -/
def Call.cells : Call → List (Series × List GoString)
  | .backendLiveChange s t _ => [(.backendLive, [s, t.Host, t.Port])]
  | .connectionsChange s _ => [(.serverActiveConnections, [s])]
  | .statsChange s _ =>
      [(.serverRxTotal, [s]), (.serverTxTotal, [s]), (.serverRxSecond, [s]),
       (.serverTxSecond, [s])]
  | .backendStatsChange s t _ =>
      [(.serverCount, [s]), (.backendRxBytes, [s, t.Host, t.Port]),
       (.backendTxBytes, [s, t.Host, t.Port]), (.backendRxSecond, [s, t.Host, t.Port]),
       (.backendTxSecond, [s, t.Host, t.Port])]
  | .handleOp s t _ =>
      [(.backendActiveConnections, [s, t.Host, t.Port]),
       (.backendRefusedConnections, [s, t.Host, t.Port]),
       (.backendTotalConnections, [s, t.Host, t.Port])]

/-- A finite sequence of calls, one after the other; a panic ends it. -/
def runCalls : List Call → Exec Unit
  | [] => pure ()
  | c :: cs => do
      c.exec
      runCalls cs

/-- Reporting is enabled: every variable holds the vector `defineMetrics`
assigned to it, with whatever cells it has by now. -/
def Enabled (st : Vars) : Prop :=
  ∀ v, ∃ gv dv, st v = some gv ∧ metrics.defineMetrics Vars.init v = some dv ∧
    gv.opts = dv.opts ∧ gv.labelNames = dv.labelNames

/-! ## The management API -/

namespace api

/-- Go `api.Start(cfg)`. The functions `attachRoot`, `attachServers` and
`attachPublic` live in other files of the package; the engine records that
they were applied. -/
def Start (net : Net) (cfg : config.ApiConfig) (p : Process) : Process :=
  let log := logging.For "api"
  if !cfg.Enabled then
    log.Info ["API disabled"] p
  else
    let p := log.Info ["Starting up API"] p
    let app := gin.New
    let (app, p) :=
      if cfg.Cors then
        ({ app with middleware := app.middleware ++ ["cors"] }, log.Info ["API CORS enabled"] p)
      else (app, p)
    let (app, p) :=
      if cfg.Pprof then
        ({ app with attached := app.attached ++ ["/debug/pprof"] },
          log.Info ["Registering /debug/pprof"] p)
      else (app, p)
    let (app, p) :=
      match cfg.BasicAuth with
      | some _ =>
        ({ app with middleware := app.middleware ++ ["basicauth"] },
          log.Info ["Using HTTP Basic Auth"] p)
      | none => (app, p)
    let app := { app with attached := app.attached ++ ["root", "servers", "public"] }
    let p := { p with app := some app }
    let (err, p) :=
      match cfg.Tls with
      | some tls =>
        (net.ListenAndServeTLS cfg.Bind tls.CertPath tls.KeyPath,
          log.Info ["Starting HTTPS server ", cfg.Bind] p)
      | none => (net.ListenAndServe cfg.Bind, log.Info ["Starting HTTP server ", cfg.Bind] p)
    match err with
    | some e => log.Fatal e p
    | none => { p with listening := p.listening ++ [cfg.Bind] }

end api

/-- The fourteen variables in the order of their declaration. -/
def allSeries : List Series :=
  [.serverCount, .serverActiveConnections, .serverRxTotal, .serverTxTotal, .serverRxSecond,
   .serverTxSecond, .backendActiveConnections, .backendRefusedConnections,
   .backendTotalConnections, .backendRxBytes, .backendTxBytes, .backendRxSecond,
   .backendTxSecond, .backendLive]

/-- The fully qualified name under which the vector of a variable is
registered. -/
def Series.fqName (v : Series) : String :=
  ((metrics.defineMetrics Vars.init v).map (fun gv => BuildFQName gv.opts)).getD ""

/-- The label schema `defineMetrics` gives the vector of a variable. -/
def Series.labelNames (v : Series) : List String :=
  ((metrics.defineMetrics Vars.init v).map (fun gv => gv.labelNames)).getD []

/-- While `Start` registers: running, the names registered so far, the
multiplexer as it was, the variables as `defineMetrics` left them. -/
def Registering (linked : Linked) (p : Process) (r : List String) : Prop :=
  p.status = .running ∧ p.registry = linked.registry ++ r ∧ p.mux = linked.mux ∧
    p.vars = metrics.defineMetrics Vars.init

/-- The step from `st` to `st1` keeps every cell and changes or creates cells
among `W` only. -/
def FrameOn (W : List (Series × List GoString)) (st st1 : Vars) : Prop :=
  ∀ v k, (∀ x, read st v k = some x → ∃ y, read st1 v k = some y) ∧
    ((v, k) ∉ W → read st1 v k = read st v k)

/-! ## Sample data -/

/-- The patterns `net/http/pprof` installs and names of the Go and process
collectors of the exporter library. -/
def linkedStd : Linked :=
  { mux := ["/debug/pprof/", "/debug/pprof/cmdline", "/debug/pprof/profile",
            "/debug/pprof/symbol", "/debug/pprof/trace"],
    registry := ["process_cpu_seconds_total", "process_open_fds", "process_max_fds",
                 "process_virtual_memory_bytes", "process_resident_memory_bytes",
                 "process_start_time_seconds", "go_goroutines", "go_threads",
                 "go_gc_duration_seconds", "go_info", "go_memstats_alloc_bytes"] }

/-- The server name of the scenarios. -/
def srv1 : GoString := lit "srv1"

/-- Another server name. -/
def srv2 : GoString := lit "srv2"

/-- The one byte string "\xff", which is not valid UTF-8. -/
def badName : GoString := [0xff]

/-- A backend address. -/
def targetX : core.Target := { Host := lit "10.0.0.1", Port := lit "8080" }

/-- A backend address whose host is not valid UTF-8. -/
def targetBad : core.Target := { Host := [0x61, 0xff, 0x62], Port := lit "8080" }

/-- Statistics with every counter zero. -/
def zeroStats : core.BackendStats :=
  { ActiveConnections := 0, RefusedConnections := 0, TotalConnections := 0,
    RxBytes := 0, TxBytes := 0, RxSecond := 0, TxSecond := 0 }

/-- A network on which every listener starts and serves. -/
def netUp : Net :=
  { ListenAndServe := fun _ => none, ListenAndServeTLS := fun _ _ _ => none }

/-- A network on which no listener can bind its address. -/
def netBusy : Net :=
  { ListenAndServe := fun _ => some "listen tcp: bind: address already in use",
    ListenAndServeTLS := fun _ _ _ => some "listen tcp: bind: address already in use" }

/-- Metrics switched on. -/
def cfgOn : config.MetricsConfig := { Enabled := true, Bind := ":9284" }

/-- Metrics switched off. -/
def cfgOff : config.MetricsConfig := { Enabled := false, Bind := ":9284" }

/-- The backend of Scenario D: 1000 bytes received. -/
def backendX : core.Backend := { Stats := { zeroStats with RxBytes := 1000 } }

/-- A backend that received 2^53 + 1 bytes and served as many connections. -/
def backendBig : core.Backend :=
  { Stats := { zeroStats with RxBytes := 9007199254740993,
                              TotalConnections := 9007199254740993 } }

/-- A backend with 3 active, 1 refused and 40 connections in total. -/
def backendOps : core.Backend :=
  { Stats := { zeroStats with ActiveConnections := 3, RefusedConnections := 1,
                              TotalConnections := 40 } }

/-- API switched on, plain HTTP. -/
def apiOn : config.ApiConfig :=
  { Enabled := true, Bind := ":8888", Cors := false, Pprof := false, BasicAuth := none,
    Tls := none }

/-- API switched on, TLS. -/
def apiTls : config.ApiConfig :=
  { Enabled := true, Bind := ":8443", Cors := false, Pprof := false, BasicAuth := none,
    Tls := some { CertPath := "cert.pem", KeyPath := "key.pem" } }

/-- The package variables after `metrics.Start` with metrics switched on. -/
def enabledVars : Vars := (metrics.Start netUp cfgOn (Process.init linkedStd)).vars

/-- An enabled state in which server srv2 has nine connections. -/
def busyVars : Vars := (metrics.ReportHandleConnectionsChange srv2 9 enabledVars).2

end Gobetween

/-! # Theorems -/

namespace Gobetween

open metrics prometheus

/-! ## Rounding -/

theorem excessBits_small (fuel n : Nat) (h : n < 2 ^ 53) : excessBits fuel n = 0 := by
  cases fuel with
  | zero => rfl
  | succ f => simp only [excessBits, if_pos h]

theorem roundNat_exact (n : Nat) (h : n ≤ 2 ^ 53) : roundNat n = n := by
  rcases Nat.lt_or_ge n (2 ^ 53) with hlt | hge
  · simp [roundNat, excessBits_small n n hlt, Nat.mod_one]
  · have : n = 2 ^ 53 := Nat.le_antisymm h hge
    subst this
    decide

theorem float64_natCast (n : Nat) (h : n ≤ 2 ^ 53) : float64 (n : Int) = (n : Int) := by
  have h0 : ¬ ((n : Int) < 0) := by omega
  simp [float64, h0, roundNat_exact n h]

theorem float64_exact (x : Int) (h : x.natAbs ≤ 2 ^ 53) : float64 x = x := by
  unfold float64
  rw [roundNat_exact _ h]
  split <;> omega

/-! ## Running the primitives -/

theorem run_pure {α : Type} (a : α) (st : Vars) : (pure a : Exec α) st = (.ok a, st) := rfl

theorem run_bind {α β : Type} (x : Exec α) (f : α → Exec β) (st : Vars) :
    (x >>= f) st = match x st with
      | (.ok a, st1) => f a st1
      | (.error e, st1) => (.error e, st1) := rfl

theorem run_isNil_bind {β : Type} (v : Series) (f : Bool → Exec β) (st : Vars) :
    (isNil v >>= f) st = f (st v).isNone st := rfl

theorem run_set_bind {β : Type} (g : Gauge) (x : Int) (f : Unit → Exec β) (st : Vars) :
    (g.Set x >>= f) st = f () (put g.vec g.labelValues x st) := rfl

theorem run_set (g : Gauge) (x : Int) (st : Vars) :
    g.Set x st = (.ok (), put g.vec g.labelValues x st) := rfl

theorem run_deref_bind {α β : Type} (p : Option α) (f : α → Exec β) (st : Vars) :
    (deref p >>= f) st = match p with
      | some a => f a st
      | none => (.error .nilDereference, st) := by
  cases p <;> rfl

theorem run_withLabelValues_bind {β : Type} (v : Series) (k : List GoString)
    (f : Gauge → Exec β) (st : Vars) :
    (WithLabelValues v k >>= f) st = match st v with
      | none => (.error .nilDereference, st)
      | some gv =>
        if k.length = gv.labelNames.length then
          if k.all utf8.ValidString then f ⟨v, k⟩ (touch v k st)
          else (.error .invalidLabelValue, st)
        else (.error .labelCardinality, st) := by
  simp only [run_bind, WithLabelValues]
  cases st v with
  | none => rfl
  | some gv =>
    by_cases h : k.length = gv.labelNames.length <;>
      by_cases h2 : k.all utf8.ValidString = true <;> simp [h, h2]

/-! ## Cells after a write -/

theorem put_apply_ne (v w : Series) (k : List GoString) (x : Int) (st : Vars) (h : w ≠ v) :
    put v k x st w = st w := by
  simp [put, h]

theorem put_apply_self (v : Series) (k : List GoString) (x : Int) (st : Vars) :
    put v k x st v = (st v).map (fun gv =>
      { gv with cells := fun j => if j = k then some x else gv.cells j }) := by
  simp [put]

theorem touch_apply_ne (v w : Series) (k : List GoString) (st : Vars) (h : w ≠ v) :
    touch v k st w = st w := by
  simp [touch, h]

theorem touch_apply_self (v : Series) (k : List GoString) (st : Vars) :
    touch v k st v = (st v).map (fun gv =>
      { gv with cells := fun j => if j = k then some ((gv.cells k).getD 0) else gv.cells j }) := by
  simp [touch]

theorem put_touch (v : Series) (k : List GoString) (x : Int) (st : Vars) :
    put v k x (touch v k st) = put v k x st := by
  funext w
  by_cases h : w = v
  · subst h
    rw [put_apply_self, put_apply_self, touch_apply_self]
    cases st w with
    | none => rfl
    | some gv =>
      simp only [Option.map_some']
      congr 2
      funext j
      by_cases hj : j = k <;> simp [hj]
  · rw [put_apply_ne _ _ _ _ _ h, put_apply_ne _ _ _ _ _ h, touch_apply_ne _ _ _ _ h]

theorem read_put (v w : Series) (k j : List GoString) (x : Int) (st : Vars) :
    read (put v k x st) w j =
      if w = v ∧ j = k then (if (st v).isSome then some x else none) else read st w j := by
  unfold read
  by_cases h : w = v
  · subst h
    rw [put_apply_self]
    cases st w with
    | none => simp
    | some gv => by_cases hj : j = k <;> simp [hj]
  · rw [put_apply_ne _ _ _ _ _ h]
    simp [h]

theorem read_touch (v w : Series) (k j : List GoString) (st : Vars) :
    read (touch v k st) w j =
      if w = v ∧ j = k then (if (st v).isSome then some ((read st v k).getD 0) else none)
      else read st w j := by
  unfold read
  by_cases h : w = v
  · subst h
    rw [touch_apply_self]
    cases st w with
    | none => simp
    | some gv => by_cases hj : j = k <;> simp [hj]
  · rw [touch_apply_ne _ _ _ _ h]
    simp [h]

theorem put_isSome (v w : Series) (k : List GoString) (x : Int) (st : Vars) :
    (put v k x st w).isSome = (st w).isSome := by
  by_cases h : w = v
  · subst h
    rw [put_apply_self]
    cases st w <;> rfl
  · rw [put_apply_ne _ _ _ _ _ h]

theorem touch_isSome (v w : Series) (k : List GoString) (st : Vars) :
    (touch v k st w).isSome = (st w).isSome := by
  by_cases h : w = v
  · subst h
    rw [touch_apply_self]
    cases st w <;> rfl
  · rw [touch_apply_ne _ _ _ _ h]

/-! ## Enabled states -/

theorem enabled_defineMetrics (st : Vars) : Enabled (defineMetrics st) := by
  intro v
  cases v <;> exact ⟨_, _, rfl, rfl, rfl, rfl⟩

theorem enabled_put (st : Vars) (h : Enabled st) (v : Series) (k : List GoString) (x : Int) :
    Enabled (put v k x st) := by
  intro w
  obtain ⟨gv, dv, h1, h2, h3, h4⟩ := h w
  by_cases hw : w = v
  · subst hw
    rw [put_apply_self, h1]
    exact ⟨_, dv, rfl, h2, h3, h4⟩
  · rw [put_apply_ne _ _ _ _ _ hw]
    exact ⟨gv, dv, h1, h2, h3, h4⟩

theorem enabled_touch (st : Vars) (h : Enabled st) (v : Series) (k : List GoString) :
    Enabled (touch v k st) := by
  intro w
  obtain ⟨gv, dv, h1, h2, h3, h4⟩ := h w
  by_cases hw : w = v
  · subst hw
    rw [touch_apply_self, h1]
    exact ⟨_, dv, rfl, h2, h3, h4⟩
  · rw [touch_apply_ne _ _ _ _ hw]
    exact ⟨gv, dv, h1, h2, h3, h4⟩

theorem enabled_isSome (st : Vars) (h : Enabled st) (v : Series) : (st v).isSome = true := by
  obtain ⟨gv, _, h1, _⟩ := h v
  simp [h1]

theorem enabled_isNone (st : Vars) (h : Enabled st) (v : Series) : (st v).isNone = false := by
  obtain ⟨gv, _, h1, _⟩ := h v
  simp [h1]

/-- In an enabled state a `WithLabelValues` with one value on a server series,
or with three values on a backend series, returns the gauge of the cell when
every value is valid UTF-8 and panics otherwise. -/
theorem run_withLabelValues_enabled {β : Type} (st : Vars) (h : Enabled st) (v : Series)
    (k : List GoString) (f : Gauge → Exec β)
    (hk : some k.length = (defineMetrics Vars.init v).map (fun dv => dv.labelNames.length)) :
    (WithLabelValues v k >>= f) st =
      if k.all utf8.ValidString then f ⟨v, k⟩ (touch v k st)
      else (.error .invalidLabelValue, st) := by
  rw [run_withLabelValues_bind]
  obtain ⟨gv, dv, h1, h2, _, h4⟩ := h v
  rw [h2] at hk
  simp only [Option.map_some', Option.some.injEq] at hk
  rw [h1]
  simp [hk, h4]

theorem all_valid_one (s : GoString) :
    [s].all utf8.ValidString = utf8.ValidString s := by
  simp

theorem all_valid_three (s a b : GoString) :
    [s, a, b].all utf8.ValidString =
      (utf8.ValidString s && utf8.ValidString a && utf8.ValidString b) := by
  simp [Bool.and_assoc]

theorem run_connections_enabled (st : Vars) (h : Enabled st) (s : GoString) (n : Nat) :
    ReportHandleConnectionsChange s n st =
      if utf8.ValidString s then (.ok (), put .serverActiveConnections [s] (float64 n) st)
      else (.error .invalidLabelValue, st) := by
  unfold ReportHandleConnectionsChange
  rw [run_isNil_bind, enabled_isNone st h]
  simp only [Bool.false_eq_true, if_false]
  rw [run_withLabelValues_enabled st h, run_set, put_touch, all_valid_one]
  rfl

theorem run_live_enabled (st : Vars) (h : Enabled st) (s : GoString) (t : core.Target)
    (live : Bool) :
    ReportHandleBackendLiveChange s t live st =
      if utf8.ValidString s && utf8.ValidString t.Host && utf8.ValidString t.Port then
        (.ok (), put .backendLive [s, t.Host, t.Port] (if live then 1 else 0) st)
      else (.error .invalidLabelValue, st) := by
  unfold ReportHandleBackendLiveChange
  rw [run_isNil_bind, enabled_isNone st h]
  simp only [Bool.false_eq_true, if_false]
  rw [run_withLabelValues_enabled st h, run_set, put_touch, all_valid_three]
  · cases live <;> rfl
  · rfl

theorem run_stats_enabled (st : Vars) (h : Enabled st) (s : GoString)
    (bs : counters.BandwidthStats) (hs : utf8.ValidString s = true) :
    ReportHandleStatsChange s bs st =
      (.ok (), put .serverTxSecond [s] (float64 bs.TxSecond)
        (put .serverRxSecond [s] (float64 bs.RxSecond)
          (put .serverTxTotal [s] (float64 bs.TxTotal)
            (put .serverRxTotal [s] (float64 bs.RxTotal) st)))) := by
  have h1 := enabled_put st h .serverRxTotal [s] (float64 bs.RxTotal)
  have h2 := enabled_put _ h1 .serverTxTotal [s] (float64 bs.TxTotal)
  have h3 := enabled_put _ h2 .serverRxSecond [s] (float64 bs.RxSecond)
  unfold ReportHandleStatsChange
  simp only [run_isNil_bind, enabled_isNone st h, Bool.or_false, Bool.false_eq_true, if_false]
  rw [run_withLabelValues_enabled st h]
  simp only [all_valid_one, hs, if_true, run_set_bind, put_touch]
  rw [run_withLabelValues_enabled _ h1]
  simp only [all_valid_one, hs, if_true, run_set_bind, put_touch]
  rw [run_withLabelValues_enabled _ h2]
  simp only [all_valid_one, hs, if_true, run_set_bind, put_touch]
  rw [run_withLabelValues_enabled _ h3]
  simp only [all_valid_one, hs, if_true, run_set, put_touch]
  all_goals rfl

theorem run_stats_invalid (st : Vars) (h : Enabled st) (s : GoString)
    (bs : counters.BandwidthStats) (hs : utf8.ValidString s = false) :
    ReportHandleStatsChange s bs st = (.error .invalidLabelValue, st) := by
  unfold ReportHandleStatsChange
  simp only [run_isNil_bind, enabled_isNone st h, Bool.or_false, Bool.false_eq_true, if_false]
  rw [run_withLabelValues_enabled st h]
  simp only [all_valid_one, hs, Bool.false_eq_true, if_false]
  rfl

theorem run_backendStats_enabled (st : Vars) (h : Enabled st) (s : GoString) (t : core.Target)
    (m : BackendMap) (b : core.Backend) (hb : m.index t = some b)
    (hs : utf8.ValidString s = true) (hh : utf8.ValidString t.Host = true)
    (hp : utf8.ValidString t.Port = true) :
    ReportHandleBackendStatsChange s t m st =
      (.ok (), put .backendTxSecond [s, t.Host, t.Port] (float64 b.Stats.TxSecond)
        (put .backendRxSecond [s, t.Host, t.Port] (float64 b.Stats.RxSecond)
          (put .backendTxBytes [s, t.Host, t.Port] (float64 b.Stats.TxBytes)
            (put .backendRxBytes [s, t.Host, t.Port] (float64 b.Stats.RxBytes)
              (put .serverCount [s] (float64 m.len) st))))) := by
  have h1 := enabled_put st h .serverCount [s] (float64 m.len)
  have h2 := enabled_put _ h1 .backendRxBytes [s, t.Host, t.Port] (float64 b.Stats.RxBytes)
  have h3 := enabled_put _ h2 .backendTxBytes [s, t.Host, t.Port] (float64 b.Stats.TxBytes)
  have h4 := enabled_put _ h3 .backendRxSecond [s, t.Host, t.Port] (float64 b.Stats.RxSecond)
  unfold ReportHandleBackendStatsChange
  simp only [run_isNil_bind, enabled_isNone st h, Bool.or_false, Bool.false_eq_true, if_false,
    hb]
  rw [run_withLabelValues_enabled st h]
  simp only [all_valid_one, hs, if_true, run_set_bind, put_touch]
  rw [run_withLabelValues_enabled _ h1]
  simp only [all_valid_three, hs, hh, hp, Bool.and_self, if_true, run_deref_bind, run_set_bind,
    put_touch]
  rw [run_withLabelValues_enabled _ h2]
  simp only [all_valid_three, hs, hh, hp, Bool.and_self, if_true, run_deref_bind, run_set_bind,
    put_touch]
  rw [run_withLabelValues_enabled _ h3]
  simp only [all_valid_three, hs, hh, hp, Bool.and_self, if_true, run_deref_bind, run_set_bind,
    put_touch]
  rw [run_withLabelValues_enabled _ h4]
  simp only [all_valid_three, hs, hh, hp, Bool.and_self, if_true, run_deref_bind, run_set,
    put_touch]
  all_goals rfl

theorem run_backendStats_absent (st : Vars) (h : Enabled st) (s : GoString) (t : core.Target)
    (m : BackendMap) (hb : m.index t = none)
    (hs : utf8.ValidString s = true) (hh : utf8.ValidString t.Host = true)
    (hp : utf8.ValidString t.Port = true) :
    ReportHandleBackendStatsChange s t m st =
      (.error .nilDereference, touch .backendRxBytes [s, t.Host, t.Port]
        (put .serverCount [s] (float64 m.len) st)) := by
  have h1 := enabled_put st h .serverCount [s] (float64 m.len)
  unfold ReportHandleBackendStatsChange
  simp only [run_isNil_bind, enabled_isNone st h, Bool.or_false, Bool.false_eq_true, if_false,
    hb]
  rw [run_withLabelValues_enabled st h]
  simp only [all_valid_one, hs, if_true, run_set_bind, put_touch]
  rw [run_withLabelValues_enabled _ h1]
  simp only [all_valid_three, hs, hh, hp, Bool.and_self, if_true, run_deref_bind]
  all_goals rfl

theorem run_backendStats_invalid_server (st : Vars) (h : Enabled st) (s : GoString)
    (t : core.Target) (m : BackendMap) (hs : utf8.ValidString s = false) :
    ReportHandleBackendStatsChange s t m st = (.error .invalidLabelValue, st) := by
  unfold ReportHandleBackendStatsChange
  simp only [run_isNil_bind, enabled_isNone st h, Bool.or_false, Bool.false_eq_true, if_false]
  rw [run_withLabelValues_enabled st h]
  simp only [all_valid_one, hs, Bool.false_eq_true, if_false]
  rfl

theorem run_backendStats_invalid_target (st : Vars) (h : Enabled st) (s : GoString)
    (t : core.Target) (m : BackendMap) (hs : utf8.ValidString s = true)
    (ht : (utf8.ValidString t.Host && utf8.ValidString t.Port) = false) :
    ReportHandleBackendStatsChange s t m st =
      (.error .invalidLabelValue, put .serverCount [s] (float64 m.len) st) := by
  have h1 := enabled_put st h .serverCount [s] (float64 m.len)
  unfold ReportHandleBackendStatsChange
  simp only [run_isNil_bind, enabled_isNone st h, Bool.or_false, Bool.false_eq_true, if_false]
  rw [run_withLabelValues_enabled st h]
  simp only [all_valid_one, hs, if_true, run_set_bind, put_touch]
  rw [run_withLabelValues_enabled _ h1]
  simp only [all_valid_three, hs, Bool.true_and, ht, Bool.false_eq_true, if_false]
  all_goals rfl

theorem run_handleOp_enabled (st : Vars) (h : Enabled st) (s : GoString) (t : core.Target)
    (m : BackendMap) (b : core.Backend) (hb : m.index t = some b)
    (hs : utf8.ValidString s = true) (hh : utf8.ValidString t.Host = true)
    (hp : utf8.ValidString t.Port = true) :
    ReportHandleOp s t m st =
      (.ok (), put .backendTotalConnections [s, t.Host, t.Port]
          (float64 b.Stats.TotalConnections)
        (put .backendRefusedConnections [s, t.Host, t.Port]
            (float64 b.Stats.RefusedConnections)
          (put .backendActiveConnections [s, t.Host, t.Port]
            (float64 b.Stats.ActiveConnections) st))) := by
  have h1 := enabled_put st h .backendActiveConnections [s, t.Host, t.Port]
    (float64 b.Stats.ActiveConnections)
  have h2 := enabled_put _ h1 .backendRefusedConnections [s, t.Host, t.Port]
    (float64 b.Stats.RefusedConnections)
  unfold ReportHandleOp
  simp only [run_isNil_bind, enabled_isNone st h, Bool.or_false, Bool.false_eq_true, if_false,
    hb]
  rw [run_withLabelValues_enabled st h]
  simp only [all_valid_three, hs, hh, hp, Bool.and_self, if_true, run_deref_bind, run_set_bind,
    put_touch]
  rw [run_withLabelValues_enabled _ h1]
  simp only [all_valid_three, hs, hh, hp, Bool.and_self, if_true, run_deref_bind, run_set_bind,
    put_touch]
  rw [run_withLabelValues_enabled _ h2]
  simp only [all_valid_three, hs, hh, hp, Bool.and_self, if_true, run_deref_bind, run_set,
    put_touch]
  all_goals rfl

theorem run_handleOp_absent (st : Vars) (h : Enabled st) (s : GoString) (t : core.Target)
    (m : BackendMap) (hb : m.index t = none)
    (hs : utf8.ValidString s = true) (hh : utf8.ValidString t.Host = true)
    (hp : utf8.ValidString t.Port = true) :
    ReportHandleOp s t m st =
      (.error .nilDereference, touch .backendActiveConnections [s, t.Host, t.Port] st) := by
  unfold ReportHandleOp
  simp only [run_isNil_bind, enabled_isNone st h, Bool.or_false, Bool.false_eq_true, if_false,
    hb]
  rw [run_withLabelValues_enabled st h]
  simp only [all_valid_three, hs, hh, hp, Bool.and_self, if_true, run_deref_bind]
  rfl

theorem run_handleOp_invalid (st : Vars) (h : Enabled st) (s : GoString) (t : core.Target)
    (m : BackendMap)
    (hv : (utf8.ValidString s && utf8.ValidString t.Host && utf8.ValidString t.Port) = false) :
    ReportHandleOp s t m st = (.error .invalidLabelValue, st) := by
  unfold ReportHandleOp
  simp only [run_isNil_bind, enabled_isNone st h, Bool.or_false, Bool.false_eq_true, if_false]
  rw [run_withLabelValues_enabled st h]
  simp only [all_valid_three, hv, Bool.false_eq_true, if_false]
  rfl

/-! ## Reports while every variable is nil -/

theorem exec_allNil (c : Call) (st : Vars) (h : ∀ v, st v = none) :
    c.exec st = (.ok (), st) := by
  cases c <;>
    simp only [Call.exec, ReportHandleBackendLiveChange, ReportHandleConnectionsChange,
      ReportHandleStatsChange, ReportHandleBackendStatsChange, ReportHandleOp,
      run_isNil_bind, h, Option.isNone_none, Bool.or_true, if_true] <;>
    rfl

theorem runCalls_allNil (calls : List Call) (st : Vars) (h : ∀ v, st v = none) :
    runCalls calls st = (.ok (), st) := by
  induction calls with
  | nil => rfl
  | cons c cs ih =>
    simp only [runCalls, run_bind, exec_allNil c st h]
    exact ih

theorem start_disabled (net : Net) (cfg : config.MetricsConfig) (p : Process)
    (hoff : cfg.Enabled = false) :
    Start net cfg p = logging.Logger.Info (logging.For "metrics") ["Metrics disabled"] p := by
  simp [Start, hoff]

/-- C1: from the initial state, and from the state `Start` leaves when metrics
are switched off, every finite sequence of calls of the five report functions,
whatever the arguments, returns normally and leaves the variables as they
were: `Start` changed no variable, bound no listener, registered nothing and
installed no handler, all fourteen variables are nil and no cell can be
read. -/
theorem report_noop_while_disabled (linked : Linked) (net : Net)
    (cfg : config.MetricsConfig) (calls : List Call) (hoff : cfg.Enabled = false) :
    runCalls calls Vars.init = (.ok (), Vars.init) ∧
    (Start net cfg (Process.init linked)).vars = Vars.init ∧
    (Start net cfg (Process.init linked)).status = .running ∧
    (Start net cfg (Process.init linked)).listening = [] ∧
    (Start net cfg (Process.init linked)).registry = linked.registry ∧
    (Start net cfg (Process.init linked)).mux = linked.mux ∧
    runCalls calls (Start net cfg (Process.init linked)).vars = (.ok (), Vars.init) ∧
    (∀ v, (runCalls calls (Start net cfg (Process.init linked)).vars).2 v = none) ∧
    (∀ v k, read (runCalls calls (Start net cfg (Process.init linked)).vars).2 v k = none) := by
  have hv : (Start net cfg (Process.init linked)).vars = Vars.init := by
    rw [start_disabled net cfg _ hoff]
    rfl
  have hrun := runCalls_allNil calls Vars.init (fun _ => rfl)
  refine ⟨hrun, hv, ?_, ?_, ?_, ?_, ?_, ?_, ?_⟩
  · rw [start_disabled net cfg _ hoff]
    rfl
  · rw [start_disabled net cfg _ hoff]
    rfl
  · rw [start_disabled net cfg _ hoff]
    rfl
  · rw [start_disabled net cfg _ hoff]
    rfl
  · rw [hv]
    exact hrun
  · intro v
    rw [hv, hrun]
    rfl
  · intro v k
    rw [hv, hrun]
    rfl

/-- C1 at a sample: metrics switched off, then one call of each report
function, two of them with an empty map, and one with a server name that is
not valid UTF-8. -/
theorem report_noop_while_disabled_witness :
    cfgOff.Enabled = false ∧
    runCalls
      [.backendLiveChange srv1 targetX true, .connectionsChange srv1 5,
       .statsChange srv1 ⟨1, 2, 3, 4⟩, .backendStatsChange srv1 targetX [],
       .handleOp srv1 targetX [], .connectionsChange badName 5]
      (Start netUp cfgOff (Process.init linkedStd)).vars = (.ok (), Vars.init) :=
  ⟨rfl, (report_noop_while_disabled linkedStd netUp cfgOff _ rfl).2.2.2.2.2.2.1⟩

/-! ## Start -/

theorem mustRegister_vars (v : Series) (p : Process) :
    (prometheus.MustRegister v p).vars = p.vars := by
  unfold prometheus.MustRegister
  split
  · rfl
  · split
    · rfl
    · split <;> rfl

theorem handle_vars (pattern : String) (p : Process) : (http.Handle pattern p).vars = p.vars := by
  unfold http.Handle
  split
  · rfl
  · split <;> rfl

theorem serve_vars (net : Net) (cfg : config.MetricsConfig) (p : Process) :
    (serve net cfg p).vars = p.vars := by
  unfold serve
  split
  · rfl
  · split <;> rfl

theorem start_enabled_vars (net : Net) (cfg : config.MetricsConfig) (p : Process)
    (hon : cfg.Enabled = true) : (Start net cfg p).vars = defineMetrics p.vars := by
  simp only [Start, hon, Bool.not_true, Bool.false_eq_true, if_false, serve_vars, handle_vars,
    mustRegister_vars]
  rfl

theorem serve_rest (net : Net) (cfg : config.MetricsConfig) (p : Process) :
    (serve net cfg p).status = p.status ∧ (serve net cfg p).registry = p.registry ∧
    (serve net cfg p).mux = p.mux ∧ (serve net cfg p).log = p.log := by
  unfold serve
  split
  · exact ⟨rfl, rfl, rfl, rfl⟩
  · split <;> exact ⟨rfl, rfl, rfl, rfl⟩

theorem mustRegister_step (linked : Linked) (v : Series) (p : Process) (r : List String)
    (h : Registering linked p r) (hl : v.fqName ∉ linked.registry) (hn : v.fqName ∉ r) :
    Registering linked (prometheus.MustRegister v p) (r ++ [v.fqName]) := by
  obtain ⟨hs, hr, hm, hv⟩ := h
  have hv1 : p.vars v = defineMetrics Vars.init v := by rw [hv]
  have hmem : v.fqName ∉ p.registry := by
    rw [hr]
    simp [hl, hn]
  unfold prometheus.MustRegister
  rw [if_neg (by simp [hs])]
  cases v <;>
    · rw [hv1]
      simp only [defineMetrics]
      rw [if_neg (by exact hmem)]
      exact ⟨hs, by simp only [hr, List.append_assoc]; rfl, hm, hv⟩

theorem handle_step (linked : Linked) (p : Process) (r : List String)
    (h : Registering linked p r) (hm0 : "/metrics" ∉ linked.mux) :
    (http.Handle "/metrics" p).status = .running ∧
    (http.Handle "/metrics" p).registry = linked.registry ++ r ∧
    (http.Handle "/metrics" p).mux = linked.mux ++ ["/metrics"] := by
  obtain ⟨hs, hr, hm, _⟩ := h
  unfold http.Handle
  rw [if_neg (by simp [hs]), if_neg (by rw [hm]; exact hm0)]
  exact ⟨hs, hr, by simp only [hm]⟩

/-- When the libraries hold neither the pattern `/metrics` nor one of the
fourteen names, `Start` with metrics switched on registers the fourteen
vectors in the order of the source, installs the handler and keeps running. -/
theorem start_enabled_init (linked : Linked) (net : Net) (cfg : config.MetricsConfig)
    (hon : cfg.Enabled = true) (hm0 : "/metrics" ∉ linked.mux)
    (hr0 : ∀ v : Series, v.fqName ∉ linked.registry) :
    (Start net cfg (Process.init linked)).status = .running ∧
    (Start net cfg (Process.init linked)).registry =
      linked.registry ++ allSeries.map Series.fqName ∧
    (Start net cfg (Process.init linked)).mux = linked.mux ++ ["/metrics"] := by
  obtain ⟨en, addr⟩ := cfg
  simp only at hon
  subst hon
  simp only [Start, Bool.not_true, Bool.false_eq_true, if_false, serve_rest]
  have h0 : Registering linked
      { (logging.Logger.Info (logging.For "metrics") ["Starting up Metrics server ", addr]
          (Process.init linked)) with
        vars := defineMetrics (logging.Logger.Info (logging.For "metrics")
          ["Starting up Metrics server ", addr] (Process.init linked)).vars } [] :=
    ⟨rfl, (List.append_nil _).symm, rfl, rfl⟩
  have h1 := mustRegister_step linked .serverCount _ _ h0 (hr0 _) (by decide)
  have h2 := mustRegister_step linked .serverActiveConnections _ _ h1 (hr0 _) (by decide)
  have h3 := mustRegister_step linked .serverRxTotal _ _ h2 (hr0 _) (by decide)
  have h4 := mustRegister_step linked .serverTxTotal _ _ h3 (hr0 _) (by decide)
  have h5 := mustRegister_step linked .serverRxSecond _ _ h4 (hr0 _) (by decide)
  have h6 := mustRegister_step linked .serverTxSecond _ _ h5 (hr0 _) (by decide)
  have h7 := mustRegister_step linked .backendActiveConnections _ _ h6 (hr0 _) (by decide)
  have h8 := mustRegister_step linked .backendRefusedConnections _ _ h7 (hr0 _) (by decide)
  have h9 := mustRegister_step linked .backendTotalConnections _ _ h8 (hr0 _) (by decide)
  have h10 := mustRegister_step linked .backendRxBytes _ _ h9 (hr0 _) (by decide)
  have h11 := mustRegister_step linked .backendTxBytes _ _ h10 (hr0 _) (by decide)
  have h12 := mustRegister_step linked .backendRxSecond _ _ h11 (hr0 _) (by decide)
  have h13 := mustRegister_step linked .backendTxSecond _ _ h12 (hr0 _) (by decide)
  have h14 := mustRegister_step linked .backendLive _ _ h13 (hr0 _) (by decide)
  obtain ⟨a, b, c⟩ := handle_step linked _ _ h14 hm0
  exact ⟨a, b.trans (congrArg _ (by decide)), c⟩

theorem enabledVars_eq : enabledVars = defineMetrics Vars.init :=
  start_enabled_vars netUp cfgOn (Process.init linkedStd) rfl

theorem enabledVars_enabled : Enabled enabledVars := by
  rw [enabledVars_eq]
  exact enabled_defineMetrics _

theorem busyVars_enabled : Enabled busyVars := by
  rw [busyVars, run_connections_enabled _ enabledVars_enabled]
  exact enabled_put _ enabledVars_enabled _ _ _

theorem linkedStd_free :
    "/metrics" ∉ linkedStd.mux ∧ ∀ v : Series, v.fqName ∉ linkedStd.registry := by
  refine ⟨by decide, ?_⟩
  intro v
  cases v <;> decide

/-! ## Liveness -/

theorem put_put_same (v : Series) (k : List GoString) (x y : Int) (st : Vars) :
    put v k x (put v k y st) = put v k x st := by
  funext w
  by_cases h : w = v
  · subst h
    rw [put_apply_self, put_apply_self, put_apply_self]
    cases st w with
    | none => rfl
    | some gv =>
      simp only [Option.map_some']
      congr 2
      funext j
      by_cases hj : j = k <;> simp [hj]
  · rw [put_apply_ne _ _ _ _ _ h, put_apply_ne _ _ _ _ _ h, put_apply_ne _ _ _ _ _ h]

theorem run_live_valid (st : Vars) (h : Enabled st) (s : GoString) (t : core.Target)
    (live : Bool) (hs : utf8.ValidString s = true) (hh : utf8.ValidString t.Host = true)
    (hp : utf8.ValidString t.Port = true) :
    ReportHandleBackendLiveChange s t live st =
      (.ok (), put .backendLive [s, t.Host, t.Port] (if live then 1 else 0) st) := by
  rw [run_live_enabled st h, hs, hh, hp]
  rfl

theorem run_connections_valid (st : Vars) (h : Enabled st) (s : GoString) (n : Nat)
    (hs : utf8.ValidString s = true) :
    ReportHandleConnectionsChange s n st =
      (.ok (), put .serverActiveConnections [s] (float64 n) st) := by
  rw [run_connections_enabled st h, hs]
  rfl

/-- C5, as stated, fails: the server name "\xff" is a Go string but not valid
UTF-8; the exporter library refuses it as a label value, the report panics and
`backend_live` has no value for it. -/
theorem liveness_report_invalid_name :
    utf8.ValidString badName = false ∧
    faultOf (ReportHandleBackendLiveChange badName targetX true enabledVars)
      = some .invalidLabelValue ∧
    read (ReportHandleBackendLiveChange badName targetX true enabledVars).2
      .backendLive [badName, targetX.Host, targetX.Port] = none ∧
    faultOf (ReportHandleBackendLiveChange srv1 targetBad true enabledVars)
      = some .invalidLabelValue := by
  decide

/-- C5 amended: in an enabled state, for a server name, target host and target
port that are valid UTF-8, a liveness report returns normally and
`backend_live` at (server, host, port) then reads 1 for live and 0 for not
live, whatever it held; false then true leaves 1; the same report twice in a
row leaves the state the first one left. -/
theorem liveness_report (st : Vars) (h : Enabled st) (s : GoString) (t : core.Target)
    (live : Bool) (hs : utf8.ValidString s = true) (hh : utf8.ValidString t.Host = true)
    (hp : utf8.ValidString t.Port = true) :
    (ReportHandleBackendLiveChange s t live st).1 = .ok () ∧
    read (ReportHandleBackendLiveChange s t live st).2 .backendLive [s, t.Host, t.Port]
      = some (if live then 1 else 0) ∧
    read (ReportHandleBackendLiveChange s t true
        (ReportHandleBackendLiveChange s t false st).2).2 .backendLive [s, t.Host, t.Port]
      = some 1 ∧
    (ReportHandleBackendLiveChange s t live (ReportHandleBackendLiveChange s t live st).2).2
      = (ReportHandleBackendLiveChange s t live st).2 := by
  have e := fun (l : Bool) (st1 : Vars) (h1 : Enabled st1) =>
    run_live_valid st1 h1 s t l hs hh hp
  have hq := fun (l : Bool) => enabled_put st h .backendLive [s, t.Host, t.Port]
    (if l then 1 else 0)
  refine ⟨?_, ?_, ?_, ?_⟩
  · rw [e live st h]
  · rw [e live st h]
    simp [read_put, enabled_isSome st h]
  · rw [e false st h]
    rw [e true _ (hq false)]
    simp [read_put, put_isSome, enabled_isSome st h]
  · rw [e live st h]
    rw [e live _ (hq live)]
    exact put_put_same _ _ _ _ _

/-- C5 amended at Scenario B: server srv1, backend 10.0.0.1:8080, reported not
live and then live. -/
theorem liveness_report_witness :
    Enabled enabledVars ∧ utf8.ValidString srv1 = true ∧
    utf8.ValidString targetX.Host = true ∧ utf8.ValidString targetX.Port = true ∧
    read (ReportHandleBackendLiveChange srv1 targetX true
        (ReportHandleBackendLiveChange srv1 targetX false enabledVars).2).2
      .backendLive [srv1, targetX.Host, targetX.Port] = some 1 :=
  ⟨enabledVars_enabled, by decide, by decide, by decide,
    (liveness_report enabledVars enabledVars_enabled srv1 targetX true
      (by decide) (by decide) (by decide)).2.2.1⟩

/-! ## Connection count -/

/-- C6, as stated, fails: the server name "\xff" is not valid UTF-8 and the
report panics without a value; and on a 64 bit platform the count 2^53 + 1 is
a `uint`, the gauge holds the double nearest to it, and a read gives 2^53. -/
theorem connections_report_rounds :
    faultOf (ReportHandleConnectionsChange badName 5 enabledVars)
      = some .invalidLabelValue ∧
    read (ReportHandleConnectionsChange badName 5 enabledVars).2
      .serverActiveConnections [badName] = none ∧
    read (ReportHandleConnectionsChange srv1 9007199254740993 enabledVars).2
      .serverActiveConnections [srv1] = some 9007199254740992 ∧
    read (ReportHandleConnectionsChange srv1 9007199254740993 enabledVars).2
      .serverActiveConnections [srv1] ≠ some ((9007199254740993 : Nat) : Int) := by
  decide

/-- C6 amended: in an enabled state, for a server name that is valid UTF-8, a
connection report returns normally and `server_active_connections` at the
server then reads `float64(n)`, the double nearest to the count, which is the
count itself up to 2^53; the value is overwritten: after a report of `n1` and
one of `n2` the read gives `float64(n2)`. -/
theorem connections_report (st : Vars) (h : Enabled st) (s : GoString) (n n1 n2 : Nat)
    (hs : utf8.ValidString s = true) :
    (ReportHandleConnectionsChange s n st).1 = .ok () ∧
    read (ReportHandleConnectionsChange s n st).2 .serverActiveConnections [s]
      = some (float64 n) ∧
    (n ≤ 2 ^ 53 →
      read (ReportHandleConnectionsChange s n st).2 .serverActiveConnections [s] = some (n : Int)) ∧
    read (ReportHandleConnectionsChange s n2 (ReportHandleConnectionsChange s n1 st).2).2
      .serverActiveConnections [s] = some (float64 n2) ∧
    (n2 ≤ 2 ^ 53 →
      read (ReportHandleConnectionsChange s n2 (ReportHandleConnectionsChange s n1 st).2).2
        .serverActiveConnections [s] = some (n2 : Int)) := by
  have h1 := enabled_put st h .serverActiveConnections [s] (float64 n1)
  have r : read (ReportHandleConnectionsChange s n st).2 .serverActiveConnections [s]
      = some (float64 n) := by
    rw [run_connections_valid st h s n hs]
    simp [read_put, enabled_isSome st h]
  have r2 : read (ReportHandleConnectionsChange s n2 (ReportHandleConnectionsChange s n1 st).2).2
      .serverActiveConnections [s] = some (float64 n2) := by
    rw [run_connections_valid st h s n1 hs, run_connections_valid _ h1 s n2 hs]
    simp [read_put, put_isSome, enabled_isSome st h]
  refine ⟨?_, r, ?_, r2, ?_⟩
  · rw [run_connections_valid st h s n hs]
  · intro hn
    rw [r, float64_natCast n hn]
  · intro hn
    rw [r2, float64_natCast n2 hn]

/-- C6 amended at Scenario A: server srv1, five connections, after an earlier
report of seven. -/
theorem connections_report_witness :
    Enabled enabledVars ∧ utf8.ValidString srv1 = true ∧ 5 ≤ 2 ^ 53 ∧
    read (ReportHandleConnectionsChange srv1 5 enabledVars).2
      .serverActiveConnections [srv1] = some 5 ∧
    read (ReportHandleConnectionsChange srv1 5
        (ReportHandleConnectionsChange srv1 7 enabledVars).2).2
      .serverActiveConnections [srv1] = some 5 :=
  ⟨enabledVars_enabled, by decide, by decide,
    (connections_report enabledVars enabledVars_enabled srv1 5 7 5 (by decide)).2.2.1
      (by decide),
    (connections_report enabledVars enabledVars_enabled srv1 5 7 5 (by decide)).2.2.2.2
      (by decide)⟩

/-! ## Bandwidth sample -/

/-- C7, as stated, fails: for the server name "\xff", not valid UTF-8, the
report panics without a value; and a total of 2^53 + 1 bytes is read back as
2^53. -/
theorem stats_report_rounds :
    faultOf (ReportHandleStatsChange badName ⟨1000, 2000, 10, 20⟩ enabledVars)
      = some .invalidLabelValue ∧
    read (ReportHandleStatsChange badName ⟨1000, 2000, 10, 20⟩ enabledVars).2
      .serverRxTotal [badName] = none ∧
    read (ReportHandleStatsChange srv1 ⟨9007199254740993, 0, 0, 0⟩ enabledVars).2
      .serverRxTotal [srv1] = some 9007199254740992 ∧
    read (ReportHandleStatsChange srv1 ⟨9007199254740993, 0, 0, 0⟩ enabledVars).2
      .serverRxTotal [srv1] ≠ some 9007199254740993 := by
  decide

/-- C7 amended: in an enabled state, for a server name that is valid UTF-8, a
bandwidth report returns normally and `server_rx_total`, `server_tx_total`,
`server_rx_second`, `server_tx_second` at the server then read `float64` of
`RxTotal`, `TxTotal`, `RxSecond`, `TxSecond`, each field in the series of its
name; a field of magnitude at most 2^53 is read back exactly. -/
theorem stats_report (st : Vars) (h : Enabled st) (s : GoString)
    (bs : counters.BandwidthStats) (hs : utf8.ValidString s = true) :
    (ReportHandleStatsChange s bs st).1 = .ok () ∧
    read (ReportHandleStatsChange s bs st).2 .serverRxTotal [s] = some (float64 bs.RxTotal) ∧
    read (ReportHandleStatsChange s bs st).2 .serverTxTotal [s] = some (float64 bs.TxTotal) ∧
    read (ReportHandleStatsChange s bs st).2 .serverRxSecond [s] = some (float64 bs.RxSecond) ∧
    read (ReportHandleStatsChange s bs st).2 .serverTxSecond [s] = some (float64 bs.TxSecond) ∧
    (bs.RxTotal.natAbs ≤ 2 ^ 53 → bs.TxTotal.natAbs ≤ 2 ^ 53 → bs.RxSecond.natAbs ≤ 2 ^ 53 →
      bs.TxSecond.natAbs ≤ 2 ^ 53 →
      read (ReportHandleStatsChange s bs st).2 .serverRxTotal [s] = some bs.RxTotal ∧
      read (ReportHandleStatsChange s bs st).2 .serverTxTotal [s] = some bs.TxTotal ∧
      read (ReportHandleStatsChange s bs st).2 .serverRxSecond [s] = some bs.RxSecond ∧
      read (ReportHandleStatsChange s bs st).2 .serverTxSecond [s] = some bs.TxSecond) := by
  rw [run_stats_enabled st h s bs hs]
  have hsome := enabled_isSome st h
  refine ⟨rfl, ?_, ?_, ?_, ?_, ?_⟩
  · simp [read_put, put_isSome, hsome]
  · simp [read_put, put_isSome, hsome]
  · simp [read_put, put_isSome, hsome]
  · simp [read_put, put_isSome, hsome]
  · intro a b c d
    simp [read_put, put_isSome, hsome, float64_exact _ a, float64_exact _ b, float64_exact _ c,
      float64_exact _ d]

/-- C7 amended at a sample of 1000 and 2000 bytes in total, 10 and 20 per
second. -/
theorem stats_report_witness :
    Enabled enabledVars ∧ utf8.ValidString srv1 = true ∧
    read (ReportHandleStatsChange srv1 ⟨1000, 2000, 10, 20⟩ enabledVars).2
      .serverRxTotal [srv1] = some 1000 ∧
    read (ReportHandleStatsChange srv1 ⟨1000, 2000, 10, 20⟩ enabledVars).2
      .serverTxTotal [srv1] = some 2000 ∧
    read (ReportHandleStatsChange srv1 ⟨1000, 2000, 10, 20⟩ enabledVars).2
      .serverRxSecond [srv1] = some 10 ∧
    read (ReportHandleStatsChange srv1 ⟨1000, 2000, 10, 20⟩ enabledVars).2
      .serverTxSecond [srv1] = some 20 :=
  ⟨enabledVars_enabled, by decide,
    (stats_report enabledVars enabledVars_enabled srv1 ⟨1000, 2000, 10, 20⟩
      (by decide)).2.2.2.2.2 (by decide) (by decide) (by decide) (by decide)⟩

/-! ## Backend statistics -/

/-- C4, as stated, fails: for a target whose host is not valid UTF-8 the
report panics after it wrote `server_count`, although the map holds the
target; a map may hold the target with a nil backend, and then the report
panics as well; and a backend with 2^53 + 1 bytes received is read back as
2^53. -/
theorem backendStats_report_fails :
    BackendMap.index [(targetBad, some backendX)] targetBad = some backendX ∧
    faultOf (ReportHandleBackendStatsChange srv1 targetBad [(targetBad, some backendX)]
        enabledVars) = some .invalidLabelValue ∧
    read (ReportHandleBackendStatsChange srv1 targetBad [(targetBad, some backendX)]
        enabledVars).2 .backendRxBytes [srv1, targetBad.Host, targetBad.Port] = none ∧
    faultOf (ReportHandleBackendStatsChange srv1 targetX [(targetX, none)] enabledVars)
      = some .nilDereference ∧
    BackendMap.index [(targetX, some backendBig)] targetX = some backendBig ∧
    read (ReportHandleBackendStatsChange srv1 targetX [(targetX, some backendBig)]
        enabledVars).2 .backendRxBytes [srv1, targetX.Host, targetX.Port]
      = some 9007199254740992 ∧
    read (ReportHandleBackendStatsChange srv1 targetX [(targetX, some backendBig)]
        enabledVars).2 .backendRxBytes [srv1, targetX.Host, targetX.Port]
      ≠ some backendBig.Stats.RxBytes := by
  decide

/-- C4 amended: in an enabled state, for a server name, target host and target
port that are valid UTF-8 and a map that holds a backend (not nil) at the
target, the aggregate report returns normally; then `server_count` at the
server reads `float64` of the number of keys of the map, and
`backend_rx_bytes`, `backend_tx_bytes`, `backend_rx_second`,
`backend_tx_second` at (server, host, port) read `float64` of `RxBytes`,
`TxBytes`, `RxSecond`, `TxSecond` of that backend, whatever the cells held;
numbers of magnitude at most 2^53 are read back exactly. -/
theorem backendStats_report (st : Vars) (h : Enabled st) (s : GoString) (t : core.Target)
    (m : BackendMap) (b : core.Backend) (hb : m.index t = some b)
    (hs : utf8.ValidString s = true) (hh : utf8.ValidString t.Host = true)
    (hp : utf8.ValidString t.Port = true) :
    (ReportHandleBackendStatsChange s t m st).1 = .ok () ∧
    read (ReportHandleBackendStatsChange s t m st).2 .serverCount [s]
      = some (float64 m.len) ∧
    read (ReportHandleBackendStatsChange s t m st).2 .backendRxBytes [s, t.Host, t.Port]
      = some (float64 b.Stats.RxBytes) ∧
    read (ReportHandleBackendStatsChange s t m st).2 .backendTxBytes [s, t.Host, t.Port]
      = some (float64 b.Stats.TxBytes) ∧
    read (ReportHandleBackendStatsChange s t m st).2 .backendRxSecond [s, t.Host, t.Port]
      = some (float64 b.Stats.RxSecond) ∧
    read (ReportHandleBackendStatsChange s t m st).2 .backendTxSecond [s, t.Host, t.Port]
      = some (float64 b.Stats.TxSecond) ∧
    (m.len ≤ 2 ^ 53 → b.Stats.RxBytes.natAbs ≤ 2 ^ 53 → b.Stats.TxBytes.natAbs ≤ 2 ^ 53 →
      b.Stats.RxSecond.natAbs ≤ 2 ^ 53 → b.Stats.TxSecond.natAbs ≤ 2 ^ 53 →
      read (ReportHandleBackendStatsChange s t m st).2 .serverCount [s]
        = some (m.len : Int) ∧
      read (ReportHandleBackendStatsChange s t m st).2 .backendRxBytes [s, t.Host, t.Port]
        = some b.Stats.RxBytes ∧
      read (ReportHandleBackendStatsChange s t m st).2 .backendTxBytes [s, t.Host, t.Port]
        = some b.Stats.TxBytes ∧
      read (ReportHandleBackendStatsChange s t m st).2 .backendRxSecond [s, t.Host, t.Port]
        = some b.Stats.RxSecond ∧
      read (ReportHandleBackendStatsChange s t m st).2 .backendTxSecond [s, t.Host, t.Port]
        = some b.Stats.TxSecond) := by
  rw [run_backendStats_enabled st h s t m b hb hs hh hp]
  have hsome := enabled_isSome st h
  refine ⟨rfl, ?_, ?_, ?_, ?_, ?_, ?_⟩
  · simp [read_put, put_isSome, hsome]
  · simp [read_put, put_isSome, hsome]
  · simp [read_put, put_isSome, hsome]
  · simp [read_put, put_isSome, hsome]
  · simp [read_put, put_isSome, hsome]
  · intro a0 a b c d
    simp [read_put, put_isSome, hsome, float64_natCast _ a0, float64_exact _ a,
      float64_exact _ b, float64_exact _ c, float64_exact _ d]

/-- C4 amended at Scenario D: the map holds targetX alone, with 1000 bytes
received. -/
theorem backendStats_report_witness :
    Enabled enabledVars ∧
    BackendMap.index [(targetX, some backendX)] targetX = some backendX ∧
    utf8.ValidString srv1 = true ∧ utf8.ValidString targetX.Host = true ∧
    utf8.ValidString targetX.Port = true ∧
    read (ReportHandleBackendStatsChange srv1 targetX [(targetX, some backendX)]
        enabledVars).2 .serverCount [srv1] = some 1 ∧
    read (ReportHandleBackendStatsChange srv1 targetX [(targetX, some backendX)]
        enabledVars).2 .backendRxBytes [srv1, targetX.Host, targetX.Port] = some 1000 :=
  ⟨enabledVars_enabled, rfl, by decide, by decide, by decide,
    ((backendStats_report enabledVars enabledVars_enabled srv1 targetX
      [(targetX, some backendX)] backendX rfl (by decide) (by decide) (by decide)).2.2.2.2.2.2
        (by decide) (by decide) (by decide) (by decide) (by decide)).1,
    ((backendStats_report enabledVars enabledVars_enabled srv1 targetX
      [(targetX, some backendX)] backendX rfl (by decide) (by decide) (by decide)).2.2.2.2.2.2
        (by decide) (by decide) (by decide) (by decide) (by decide)).2.1⟩

/-! ## Backend operation statistics -/

/-- C8, as stated, fails: for a target whose host is not valid UTF-8 the
report panics without a value, although the map holds the target; a map may
hold the target with a nil backend, and then the report panics as well; and a
backend with 2^53 + 1 connections in total is read back as 2^53. -/
theorem handleOp_report_fails :
    BackendMap.index [(targetBad, some backendOps)] targetBad = some backendOps ∧
    faultOf (ReportHandleOp srv1 targetBad [(targetBad, some backendOps)] enabledVars)
      = some .invalidLabelValue ∧
    read (ReportHandleOp srv1 targetBad [(targetBad, some backendOps)] enabledVars).2
      .backendTotalConnections [srv1, targetBad.Host, targetBad.Port] = none ∧
    faultOf (ReportHandleOp srv1 targetX [(targetX, none)] enabledVars)
      = some .nilDereference ∧
    BackendMap.index [(targetX, some backendBig)] targetX = some backendBig ∧
    read (ReportHandleOp srv1 targetX [(targetX, some backendBig)] enabledVars).2
      .backendTotalConnections [srv1, targetX.Host, targetX.Port] = some 9007199254740992 ∧
    read (ReportHandleOp srv1 targetX [(targetX, some backendBig)] enabledVars).2
      .backendTotalConnections [srv1, targetX.Host, targetX.Port]
      ≠ some backendBig.Stats.TotalConnections := by
  decide

/-- C8 amended: in an enabled state, for a server name, target host and target
port that are valid UTF-8 and a map that holds a backend (not nil) at the
target, the operation report returns normally; then
`backend_active_connections`, `backend_refused_connections`,
`backend_total_connections` at (server, host, port) read `float64` of
`ActiveConnections`, `RefusedConnections`, `TotalConnections` of that backend;
numbers of magnitude at most 2^53 are read back exactly. -/
theorem handleOp_report (st : Vars) (h : Enabled st) (s : GoString) (t : core.Target)
    (m : BackendMap) (b : core.Backend) (hb : m.index t = some b)
    (hs : utf8.ValidString s = true) (hh : utf8.ValidString t.Host = true)
    (hp : utf8.ValidString t.Port = true) :
    (ReportHandleOp s t m st).1 = .ok () ∧
    read (ReportHandleOp s t m st).2 .backendActiveConnections [s, t.Host, t.Port]
      = some (float64 b.Stats.ActiveConnections) ∧
    read (ReportHandleOp s t m st).2 .backendRefusedConnections [s, t.Host, t.Port]
      = some (float64 b.Stats.RefusedConnections) ∧
    read (ReportHandleOp s t m st).2 .backendTotalConnections [s, t.Host, t.Port]
      = some (float64 b.Stats.TotalConnections) ∧
    (b.Stats.ActiveConnections.natAbs ≤ 2 ^ 53 → b.Stats.RefusedConnections.natAbs ≤ 2 ^ 53 →
      b.Stats.TotalConnections.natAbs ≤ 2 ^ 53 →
      read (ReportHandleOp s t m st).2 .backendActiveConnections [s, t.Host, t.Port]
        = some b.Stats.ActiveConnections ∧
      read (ReportHandleOp s t m st).2 .backendRefusedConnections [s, t.Host, t.Port]
        = some b.Stats.RefusedConnections ∧
      read (ReportHandleOp s t m st).2 .backendTotalConnections [s, t.Host, t.Port]
        = some b.Stats.TotalConnections) := by
  rw [run_handleOp_enabled st h s t m b hb hs hh hp]
  have hsome := enabled_isSome st h
  refine ⟨rfl, ?_, ?_, ?_, ?_⟩
  · simp [read_put, put_isSome, hsome]
  · simp [read_put, put_isSome, hsome]
  · simp [read_put, put_isSome, hsome]
  · intro a b c
    simp [read_put, put_isSome, hsome, float64_exact _ a, float64_exact _ b, float64_exact _ c]

/-- C8 amended at a sample: 3 active, 1 refused, 40 connections in total. -/
theorem handleOp_report_witness :
    Enabled enabledVars ∧
    BackendMap.index [(targetX, some backendOps)] targetX = some backendOps ∧
    utf8.ValidString srv1 = true ∧ utf8.ValidString targetX.Host = true ∧
    utf8.ValidString targetX.Port = true ∧
    read (ReportHandleOp srv1 targetX [(targetX, some backendOps)] enabledVars).2
      .backendActiveConnections [srv1, targetX.Host, targetX.Port] = some 3 ∧
    read (ReportHandleOp srv1 targetX [(targetX, some backendOps)] enabledVars).2
      .backendRefusedConnections [srv1, targetX.Host, targetX.Port] = some 1 ∧
    read (ReportHandleOp srv1 targetX [(targetX, some backendOps)] enabledVars).2
      .backendTotalConnections [srv1, targetX.Host, targetX.Port] = some 40 :=
  ⟨enabledVars_enabled, rfl, by decide, by decide, by decide,
    (handleOp_report enabledVars enabledVars_enabled srv1 targetX
      [(targetX, some backendOps)] backendOps rfl (by decide) (by decide) (by decide)).2.2.2.2
      (by decide) (by decide) (by decide)⟩

/-! ## Listener start-up -/

theorem mustRegister_log (v : Series) (p : Process) :
    (prometheus.MustRegister v p).log = p.log := by
  unfold prometheus.MustRegister
  split
  · rfl
  · split
    · rfl
    · split <;> rfl

theorem handle_log (pattern : String) (p : Process) : (http.Handle pattern p).log = p.log := by
  unfold http.Handle
  split
  · rfl
  · split <;> rfl

theorem mustRegister_not_exited (v : Series) (p : Process)
    (h : ∀ code, p.status ≠ .exited code) :
    ∀ code, (prometheus.MustRegister v p).status ≠ .exited code := by
  intro code
  unfold prometheus.MustRegister
  split
  · exact h code
  · split
    · simp
    · split
      · simp
      · exact h code

theorem handle_not_exited (pattern : String) (p : Process)
    (h : ∀ code, p.status ≠ .exited code) :
    ∀ code, (http.Handle pattern p).status ≠ .exited code := by
  intro code
  unfold http.Handle
  split
  · exact h code
  · split
    · simp
    · exact h code

/-- Whatever the listener of the scrape endpoint returns, `metrics.Start` does
not terminate the process and writes nothing to the log but its one
informational line. -/
theorem metrics_start_never_fatal (net : Net) (cfg : config.MetricsConfig) (p : Process)
    (hp : p.status = .running) :
    (∀ code, (Start net cfg p).status ≠ .exited code) ∧
    (Start net cfg p).log = p.log ++
      [{ logger := "metrics", level := "info",
         message := if cfg.Enabled then String.join ["Starting up Metrics server ", cfg.Bind]
           else "Metrics disabled" }] := by
  have hp1 : ∀ code, p.status ≠ .exited code := by
    intro code
    rw [hp]
    simp
  cases hen : cfg.Enabled
  · simp only [Start, hen, Bool.not_false, if_true]
    exact ⟨hp1, rfl⟩
  · simp only [Start, hen, Bool.not_true, Bool.false_eq_true, if_false, serve_rest,
      handle_log, mustRegister_log]
    refine ⟨?_, by simp [logging.Logger.Info, logging.For]⟩
    apply handle_not_exited
    iterate 14 apply mustRegister_not_exited
    exact hp1

/-- When the API is switched on and its listener returns an error, `api.Start`
logs the error at fatal level and the process terminates. -/
theorem api_start_fatal (net : Net) (cfg : config.ApiConfig) (p : Process) (e : String)
    (hon : cfg.Enabled = true)
    (herr : (match cfg.Tls with
      | some tls => net.ListenAndServeTLS cfg.Bind tls.CertPath tls.KeyPath
      | none => net.ListenAndServe cfg.Bind) = some e) :
    (api.Start net cfg p).status = .exited 1 ∧
    (api.Start net cfg p).log.getLast? = some { logger := "api", level := "fatal", message := e } := by
  obtain ⟨en, addr, cors, pprof, auth, tls⟩ := cfg
  simp only at hon herr
  subst hon
  cases cors <;> cases pprof <;> cases auth <;> cases tls <;>
    simp only at herr <;>
    simp [api.Start, herr, logging.Logger.Fatal, logging.Logger.Info, logging.For]

/-- C2: at the failing input, an enabled state and a map without the target,
the aggregate report writes `server_count` and then panics on the nil backend,
so `backend_tx_bytes` has no value at all and an older `backend_rx_bytes`
value (1000) stays instead of becoming 0; the operation report panics before
it sets anything. -/
theorem missing_entry_panics :
    BackendMap.index [] targetX = none ∧
    faultOf (ReportHandleBackendStatsChange srv1 targetX [] enabledVars)
      = some .nilDereference ∧
    read (ReportHandleBackendStatsChange srv1 targetX [] enabledVars).2
      .serverCount [srv1] = some 0 ∧
    read (ReportHandleBackendStatsChange srv1 targetX [] enabledVars).2
      .backendTxBytes [srv1, targetX.Host, targetX.Port] = none ∧
    read (ReportHandleBackendStatsChange srv1 targetX []
        (ReportHandleBackendStatsChange srv1 targetX [(targetX, some backendX)]
          enabledVars).2).2
      .backendRxBytes [srv1, targetX.Host, targetX.Port] = some 1000 ∧
    faultOf (ReportHandleOp srv1 targetX [] enabledVars) = some .nilDereference ∧
    read (ReportHandleOp srv1 targetX [] enabledVars).2
      .backendRefusedConnections [srv1, targetX.Host, targetX.Port] = none ∧
    read (ReportHandleOp srv1 targetX [] enabledVars).2
      .backendTotalConnections [srv1, targetX.Host, targetX.Port] = none := by
  decide

/-- C3: at the failing input, metrics switched on and the address in use, the
error of the scrape listener is dropped: `metrics.Start` leaves the process
running with nothing listening and no line in the log but the informational
one; `api.Start` on the same network logs the error at fatal level and the
process exits, for plain HTTP and for TLS. -/
theorem metrics_listener_error_dropped :
    netBusy.ListenAndServe cfgOn.Bind = some "listen tcp: bind: address already in use" ∧
    (Start netBusy cfgOn (Process.init linkedStd)).status = .running ∧
    (Start netBusy cfgOn (Process.init linkedStd)).listening = [] ∧
    (Start netBusy cfgOn (Process.init linkedStd)).log =
      [{ logger := "metrics", level := "info", message := "Starting up Metrics server :9284" }] ∧
    (api.Start netBusy apiOn (Process.init linkedStd)).status = .exited 1 ∧
    (api.Start netBusy apiOn (Process.init linkedStd)).log.getLast? =
      some { logger := "api", level := "fatal",
             message := "listen tcp: bind: address already in use" } ∧
    (api.Start netBusy apiTls (Process.init linkedStd)).status = .exited 1 := by
  decide

/-! ## Frame -/

theorem frameOn_refl (W : List (Series × List GoString)) (st : Vars) : FrameOn W st st :=
  fun _ _ => ⟨fun x hx => ⟨x, hx⟩, fun _ => rfl⟩

theorem frameOn_trans (W : List (Series × List GoString)) (a b c : Vars)
    (h1 : FrameOn W a b) (h2 : FrameOn W b c) : FrameOn W a c := by
  intro v k
  refine ⟨?_, ?_⟩
  · intro x hx
    obtain ⟨y, hy⟩ := (h1 v k).1 x hx
    exact (h2 v k).1 y hy
  · intro hn
    rw [(h2 v k).2 hn, (h1 v k).2 hn]

theorem frameOn_put (W : List (Series × List GoString)) (st : Vars) (v : Series)
    (k : List GoString) (x : Int) (hm : (v, k) ∈ W) : FrameOn W st (put v k x st) := by
  intro w j
  rw [read_put]
  by_cases hc : w = v ∧ j = k
  · obtain ⟨rfl, rfl⟩ := hc
    refine ⟨?_, fun hn => absurd hm hn⟩
    intro y hy
    have : (st w).isSome = true := by
      unfold read at hy
      cases hw : st w with
      | none => rw [hw] at hy; simp at hy
      | some gv => rfl
    exact ⟨x, by simp [this]⟩
  · rw [if_neg hc]
    exact ⟨fun y hy => ⟨y, hy⟩, fun _ => rfl⟩

theorem frameOn_touch (W : List (Series × List GoString)) (st : Vars) (v : Series)
    (k : List GoString) (hm : (v, k) ∈ W) : FrameOn W st (touch v k st) := by
  intro w j
  rw [read_touch]
  by_cases hc : w = v ∧ j = k
  · obtain ⟨rfl, rfl⟩ := hc
    refine ⟨?_, fun hn => absurd hm hn⟩
    intro y hy
    have : (st w).isSome = true := by
      unfold read at hy
      cases hw : st w with
      | none => rw [hw] at hy; simp at hy
      | some gv => rfl
    exact ⟨y, by simp [this, hy]⟩
  · rw [if_neg hc]
    exact ⟨fun y hy => ⟨y, hy⟩, fun _ => rfl⟩

theorem frameOn_exec (st : Vars) (h : Enabled st) (c : Call) :
    FrameOn c.cells st (c.exec st).2 := by
  cases c with
  | backendLiveChange s t live =>
    simp only [Call.exec, run_live_enabled st h]
    split
    · exact frameOn_put _ _ _ _ _ (by simp [Call.cells])
    · exact frameOn_refl _ _
  | connectionsChange s n =>
    simp only [Call.exec, run_connections_enabled st h]
    split
    · exact frameOn_put _ _ _ _ _ (by simp [Call.cells])
    · exact frameOn_refl _ _
  | statsChange s bs =>
    cases hs : utf8.ValidString s with
    | false =>
      simp only [Call.exec, run_stats_invalid st h s bs hs]
      exact frameOn_refl _ _
    | true =>
      simp only [Call.exec, run_stats_enabled st h s bs hs]
      refine frameOn_trans _ _ _ _ (frameOn_trans _ _ _ _ (frameOn_trans _ _ _ _
        (frameOn_put _ _ _ _ _ ?_) (frameOn_put _ _ _ _ _ ?_)) (frameOn_put _ _ _ _ _ ?_))
        (frameOn_put _ _ _ _ _ ?_) <;> simp [Call.cells]
  | backendStatsChange s t m =>
    cases hs : utf8.ValidString s with
    | false =>
      simp only [Call.exec, run_backendStats_invalid_server st h s t m hs]
      exact frameOn_refl _ _
    | true =>
      cases ht : (utf8.ValidString t.Host && utf8.ValidString t.Port) with
      | false =>
        simp only [Call.exec, run_backendStats_invalid_target st h s t m hs ht]
        exact frameOn_put _ _ _ _ _ (by simp [Call.cells])
      | true =>
        obtain ⟨hh, hp⟩ := Bool.and_eq_true_iff.mp ht
        cases hb : m.index t with
        | none =>
          simp only [Call.exec, run_backendStats_absent st h s t m hb hs hh hp]
          refine frameOn_trans _ _ _ _ (frameOn_put _ _ _ _ _ ?_) (frameOn_touch _ _ _ _ ?_) <;>
            simp [Call.cells]
        | some b =>
          simp only [Call.exec, run_backendStats_enabled st h s t m b hb hs hh hp]
          refine frameOn_trans _ _ _ _ (frameOn_trans _ _ _ _ (frameOn_trans _ _ _ _
            (frameOn_trans _ _ _ _ (frameOn_put _ _ _ _ _ ?_) (frameOn_put _ _ _ _ _ ?_))
            (frameOn_put _ _ _ _ _ ?_)) (frameOn_put _ _ _ _ _ ?_))
            (frameOn_put _ _ _ _ _ ?_) <;>
            simp [Call.cells]
  | handleOp s t m =>
    cases hv : (utf8.ValidString s && utf8.ValidString t.Host && utf8.ValidString t.Port) with
    | false =>
      simp only [Call.exec, run_handleOp_invalid st h s t m hv]
      exact frameOn_refl _ _
    | true =>
      obtain ⟨hsh, hp⟩ := Bool.and_eq_true_iff.mp hv
      obtain ⟨hs, hh⟩ := Bool.and_eq_true_iff.mp hsh
      cases hb : m.index t with
      | none =>
        simp only [Call.exec, run_handleOp_absent st h s t m hb hs hh hp]
        exact frameOn_touch _ _ _ _ (by simp [Call.cells])
      | some b =>
        simp only [Call.exec, run_handleOp_enabled st h s t m b hb hs hh hp]
        refine frameOn_trans _ _ _ _ (frameOn_trans _ _ _ _
          (frameOn_put _ _ _ _ _ ?_) (frameOn_put _ _ _ _ _ ?_)) (frameOn_put _ _ _ _ _ ?_) <;>
          simp [Call.cells]

/-- In an enabled state a report returns normally, or panics on a nil backend,
or panics on a label value that is not valid UTF-8. -/
theorem exec_fault_enabled (st : Vars) (h : Enabled st) (c : Call) :
    faultOf (c.exec st) = none ∨ faultOf (c.exec st) = some .nilDereference ∨
    faultOf (c.exec st) = some .invalidLabelValue := by
  cases c with
  | backendLiveChange s t live =>
    simp only [Call.exec, run_live_enabled st h]
    split
    · exact Or.inl rfl
    · exact Or.inr (Or.inr rfl)
  | connectionsChange s n =>
    simp only [Call.exec, run_connections_enabled st h]
    split
    · exact Or.inl rfl
    · exact Or.inr (Or.inr rfl)
  | statsChange s bs =>
    cases hs : utf8.ValidString s with
    | false =>
      simp only [Call.exec, run_stats_invalid st h s bs hs]
      exact Or.inr (Or.inr rfl)
    | true =>
      simp only [Call.exec, run_stats_enabled st h s bs hs]
      exact Or.inl rfl
  | backendStatsChange s t m =>
    cases hs : utf8.ValidString s with
    | false =>
      simp only [Call.exec, run_backendStats_invalid_server st h s t m hs]
      exact Or.inr (Or.inr rfl)
    | true =>
      cases ht : (utf8.ValidString t.Host && utf8.ValidString t.Port) with
      | false =>
        simp only [Call.exec, run_backendStats_invalid_target st h s t m hs ht]
        exact Or.inr (Or.inr rfl)
      | true =>
        obtain ⟨hh, hp⟩ := Bool.and_eq_true_iff.mp ht
        cases hb : m.index t with
        | none =>
          simp only [Call.exec, run_backendStats_absent st h s t m hb hs hh hp]
          exact Or.inr (Or.inl rfl)
        | some b =>
          simp only [Call.exec, run_backendStats_enabled st h s t m b hb hs hh hp]
          exact Or.inl rfl
  | handleOp s t m =>
    cases hv : (utf8.ValidString s && utf8.ValidString t.Host && utf8.ValidString t.Port) with
    | false =>
      simp only [Call.exec, run_handleOp_invalid st h s t m hv]
      exact Or.inr (Or.inr rfl)
    | true =>
      obtain ⟨hsh, hp⟩ := Bool.and_eq_true_iff.mp hv
      obtain ⟨hs, hh⟩ := Bool.and_eq_true_iff.mp hsh
      cases hb : m.index t with
      | none =>
        simp only [Call.exec, run_handleOp_absent st h s t m hb hs hh hp]
        exact Or.inr (Or.inl rfl)
      | some b =>
        simp only [Call.exec, run_handleOp_enabled st h s t m b hb hs hh hp]
        exact Or.inl rfl

/-- C10: in an enabled state, after any of the five reports (also one that
ended in a panic) every cell that existed still exists, and it holds the value
it held unless it is one of the cells that report writes for its server and
target; cells labelled with another server, and backend cells labelled with
another target, keep their values. -/
theorem report_frame (st : Vars) (h : Enabled st) (c : Call) :
    (∀ v k x, read st v k = some x →
      (∃ y, read (c.exec st).2 v k = some y) ∧
      ((v, k) ∉ c.cells → read (c.exec st).2 v k = some x)) ∧
    (∀ v s1 x, s1 ≠ c.server → read st v [s1] = some x →
      read (c.exec st).2 v [s1] = some x) ∧
    (∀ v s1 h1 p1 x, (s1 ≠ c.server ∨ c.target ≠ some ⟨h1, p1⟩) →
      read st v [s1, h1, p1] = some x → read (c.exec st).2 v [s1, h1, p1] = some x) := by
  have f := frameOn_exec st h c
  refine ⟨?_, ?_, ?_⟩
  · intro v k x hx
    refine ⟨(f v k).1 x hx, fun hn => ?_⟩
    rw [(f v k).2 hn, hx]
  · intro v s1 x hs hx
    have hn : (v, [s1]) ∉ c.cells := by
      cases c <;> simp [Call.cells, Call.server] at hs ⊢ <;> simp [hs]
    rw [(f v [s1]).2 hn, hx]
  · intro v s1 h1 p1 x hs hx
    have hn : (v, [s1, h1, p1]) ∉ c.cells := by
      cases c with
      | backendLiveChange s t live =>
        obtain ⟨th, tp⟩ := t
        simp only [Call.server, Call.target, Call.cells, List.mem_singleton, Prod.mk.injEq,
          List.cons.injEq, Option.some.injEq, core.Target.mk.injEq, ne_eq] at hs ⊢
        tauto
      | connectionsChange s n => simp [Call.cells]
      | statsChange s bs => simp [Call.cells]
      | backendStatsChange s t m =>
        obtain ⟨th, tp⟩ := t
        simp only [Call.server, Call.target, Call.cells, List.mem_cons, List.mem_singleton,
          Prod.mk.injEq, List.cons.injEq, Option.some.injEq, core.Target.mk.injEq, ne_eq,
          List.not_mem_nil] at hs ⊢
        tauto
      | handleOp s t m =>
        obtain ⟨th, tp⟩ := t
        simp only [Call.server, Call.target, Call.cells, List.mem_cons, List.mem_singleton,
          Prod.mk.injEq, List.cons.injEq, Option.some.injEq, core.Target.mk.injEq, ne_eq,
          List.not_mem_nil] at hs ⊢
        tauto
    rw [(f v [s1, h1, p1]).2 hn, hx]

/-- C10 at a sample: server srv2 has nine connections; a report of five
connections for srv1 leaves the cell of srv2 as it was. -/
theorem report_frame_witness :
    Enabled busyVars ∧
    read busyVars .serverActiveConnections [srv2] = some 9 ∧
    srv2 ≠ (Call.connectionsChange srv1 5).server ∧
    read ((Call.connectionsChange srv1 5).exec busyVars).2
      .serverActiveConnections [srv2] = some 9 :=
  ⟨busyVars_enabled, by decide, by decide,
    (report_frame busyVars busyVars_enabled (.connectionsChange srv1 5)).2.1
      .serverActiveConnections srv2 9 (by decide) (by decide)⟩

/-! ## Label schema -/

theorem fqName_injective (v w : Series) (h : v.fqName = w.fqName) : v = w := by
  revert h
  cases v <;> cases w <;> decide

theorem cells_shape (c : Call) (v : Series) (k : List GoString) (hm : (v, k) ∈ c.cells) :
    (v.labelNames = ["server"] ∧ k = [c.server]) ∨
    (v.labelNames = ["server", "host", "port"] ∧
      ∃ t, c.target = some t ∧ k = [c.server, t.Host, t.Port]) := by
  cases c with
  | backendLiveChange s t live =>
    simp only [Call.cells, List.mem_singleton, Prod.mk.injEq] at hm
    obtain ⟨rfl, rfl⟩ := hm
    exact Or.inr ⟨rfl, _, rfl, rfl⟩
  | connectionsChange s n =>
    simp only [Call.cells, List.mem_singleton, Prod.mk.injEq] at hm
    obtain ⟨rfl, rfl⟩ := hm
    exact Or.inl ⟨rfl, rfl⟩
  | statsChange s bs =>
    simp only [Call.cells, List.mem_cons, Prod.mk.injEq, List.not_mem_nil, or_false] at hm
    rcases hm with ⟨rfl, rfl⟩ | ⟨rfl, rfl⟩ | ⟨rfl, rfl⟩ | ⟨rfl, rfl⟩ <;>
      exact Or.inl ⟨rfl, rfl⟩
  | backendStatsChange s t m =>
    simp only [Call.cells, List.mem_cons, Prod.mk.injEq, List.not_mem_nil, or_false] at hm
    rcases hm with ⟨rfl, rfl⟩ | ⟨rfl, rfl⟩ | ⟨rfl, rfl⟩ | ⟨rfl, rfl⟩ | ⟨rfl, rfl⟩ <;>
      first
        | exact Or.inl ⟨rfl, rfl⟩
        | exact Or.inr ⟨rfl, _, rfl, rfl⟩
  | handleOp s t m =>
    simp only [Call.cells, List.mem_cons, Prod.mk.injEq, List.not_mem_nil, or_false] at hm
    rcases hm with ⟨rfl, rfl⟩ | ⟨rfl, rfl⟩ | ⟨rfl, rfl⟩ <;>
      exact Or.inr ⟨rfl, _, rfl, rfl⟩

/-- C9: after `Start` with metrics switched on (the linked libraries holding
neither the pattern `/metrics` nor one of the fourteen names) the process
runs, fourteen vectors are defined and registered, their fully qualified names
are pairwise distinct, the six server series have the schema [server] and the
eight backend series the schema [server, host, port]; and in an enabled state
no report panics on the number of label values: every cell a report changes or
creates has as many label values as its series has label names, namely the
server name for a server series and server name, target host, target port for
a backend series. -/
theorem label_schema_consistent (linked : Linked) (net : Net) (cfg : config.MetricsConfig)
    (hon : cfg.Enabled = true) (hm0 : "/metrics" ∉ linked.mux)
    (hr0 : ∀ v : Series, v.fqName ∉ linked.registry)
    (st : Vars) (hst : Enabled st) (c : Call) :
    (Start net cfg (Process.init linked)).status = .running ∧
    Enabled (Start net cfg (Process.init linked)).vars ∧
    (Start net cfg (Process.init linked)).registry =
      linked.registry ++ allSeries.map Series.fqName ∧
    Fintype.card Series = 14 ∧ allSeries.length = 14 ∧ (∀ v, v ∈ allSeries) ∧
    (∀ v : Series, ∃ gv, (Start net cfg (Process.init linked)).vars v = some gv ∧
      BuildFQName gv.opts = v.fqName ∧ gv.labelNames = v.labelNames ∧ ∀ k, gv.cells k = none) ∧
    (∀ v w : Series, v.fqName = w.fqName → v = w) ∧
    allSeries.map (fun v => (v.fqName, v.labelNames)) =
      [("gobetween_server_count", ["server"]),
       ("gobetween_server_active_connections", ["server"]),
       ("gobetween_server_rx_total", ["server"]),
       ("gobetween_server_tx_total", ["server"]),
       ("gobetween_server_rx_second", ["server"]),
       ("gobetween_server_tx_second", ["server"]),
       ("gobetween_backend_active_connections", ["server", "host", "port"]),
       ("gobetween_backend_refused_connections", ["server", "host", "port"]),
       ("gobetween_backend_total_connections", ["server", "host", "port"]),
       ("gobetween_backend_rx_bytes", ["server", "host", "port"]),
       ("gobetween_backend_tx_bytes", ["server", "host", "port"]),
       ("gobetween_backend_rx_second", ["server", "host", "port"]),
       ("gobetween_backend_tx_second", ["server", "host", "port"]),
       ("gobetween_backend_live", ["server", "host", "port"])] ∧
    (∀ v : Series, ∃ gv, st v = some gv ∧ gv.labelNames = v.labelNames) ∧
    faultOf (c.exec st) ≠ some .labelCardinality ∧
    (∀ (v : Series) (k : List GoString), read (c.exec st).2 v k ≠ read st v k →
      k.length = v.labelNames.length ∧
      ((v.labelNames = ["server"] ∧ k = [c.server]) ∨
       (v.labelNames = ["server", "host", "port"] ∧
        ∃ t, c.target = some t ∧ k = [c.server, t.Host, t.Port]))) := by
  have hv := start_enabled_vars net cfg (Process.init linked) hon
  obtain ⟨hs, hr, _⟩ := start_enabled_init linked net cfg hon hm0 hr0
  refine ⟨hs, ?_, hr, by decide, by decide, ?_, ?_, fqName_injective, by decide, ?_, ?_, ?_⟩
  · rw [hv]
    exact enabled_defineMetrics _
  · intro v
    cases v <;> decide
  · intro v
    rw [hv]
    cases v <;> exact ⟨_, rfl, rfl, rfl, fun _ => rfl⟩
  · intro v
    obtain ⟨gv, dv, h1, h2, _, h4⟩ := hst v
    refine ⟨gv, h1, ?_⟩
    rw [h4, Series.labelNames, h2]
    rfl
  · rcases exec_fault_enabled st hst c with h | h | h <;> rw [h] <;> simp
  · intro v k hne
    have f := frameOn_exec st hst c
    have hm : (v, k) ∈ c.cells := by
      by_contra hn
      exact hne ((f v k).2 hn)
    have key := cells_shape c v k hm
    refine ⟨?_, key⟩
    rcases key with ⟨a, b⟩ | ⟨a, t, _, b⟩ <;> rw [a, b] <;> rfl

/-- C9 at a sample: metrics switched on, then a liveness report for backend
10.0.0.1:8080 of srv1 creates a cell with three label values. -/
theorem label_schema_consistent_witness :
    cfgOn.Enabled = true ∧ "/metrics" ∉ linkedStd.mux ∧
    (∀ v : Series, v.fqName ∉ linkedStd.registry) ∧ Enabled enabledVars ∧
    (Start netUp cfgOn (Process.init linkedStd)).status = .running ∧
    faultOf ((Call.backendLiveChange srv1 targetX true).exec enabledVars)
      ≠ some .labelCardinality ∧
    read ((Call.backendLiveChange srv1 targetX true).exec enabledVars).2 .backendLive
      [srv1, targetX.Host, targetX.Port]
      ≠ read enabledVars .backendLive [srv1, targetX.Host, targetX.Port] ∧
    [srv1, targetX.Host, targetX.Port].length = Series.backendLive.labelNames.length := by
  have h := label_schema_consistent linkedStd netUp cfgOn rfl linkedStd_free.1
    linkedStd_free.2 enabledVars enabledVars_enabled (.backendLiveChange srv1 targetX true)
  exact ⟨rfl, linkedStd_free.1, linkedStd_free.2, enabledVars_enabled, h.1,
    h.2.2.2.2.2.2.2.2.2.2.1, by decide,
    (h.2.2.2.2.2.2.2.2.2.2.2 .backendLive [srv1, targetX.Host, targetX.Port] (by decide)).1⟩

end Gobetween
